import Mathlib

/-!
Shallow embedding of the loan-action routing and contract-version adaptation
layer of the nftfi.js SDK (sources: src/nftfi/loans.js, src/nftfi/listings.js,
src/nftfi/config.js, the adapter classes LoansFixedV2_1, LoansFixedV2_3 and
LoansFixedCollectionV2_3).  Asynchronous JS methods become pure Lean functions;
a method that can observe a thrown exception from a collaborator receives the
collaborator as a function into Except; the private mutable contract-handle
field becomes explicit state passing.  Loan amounts are modelled as
arbitrary-precision integers (the SDK hands them to the contract layer as
BigInt or decimal-string values), so the JS conversions String(x) and
x.toLocaleString(fullwide, useGrouping false) both denote the full decimal
expansion of the integer.
-/

/-- One decimal digit d (d < 10) rendered as its ASCII character. -/
def digitChar (d : Nat) : Char := Char.ofNat (48 + d)

/-- ASCII digit character back to its numeric value. -/
def digitVal (c : Char) : Nat := c.toNat - 48

/-- Little-endian decimal digits of n, with an explicit fuel argument
(fuel at least n suffices, since n / 10 decreases strictly). -/
def digitsRevAux : Nat → Nat → List Nat
  | 0, _ => []
  | fuel + 1, n => if n = 0 then [] else n % 10 :: digitsRevAux fuel (n / 10)

/-- Little-endian decimal digits of n (empty for 0). -/
def digitsRev (n : Nat) : List Nat := digitsRevAux n n

/-- Value of a little-endian decimal digit list. -/
def ofDigitsRev : List Nat → Nat
  | [] => 0
  | d :: ds => d + 10 * ofDigitsRev ds

/-- Full-precision decimal rendering of an arbitrary-precision integer.
This is what both JS conversions used by the adapters produce on integer
(BigInt or decimal-string) amounts: String(x) in the collection v2.3 adapter
and x.toLocaleString(fullwide, useGrouping false) in the v2.1 and v2.3
adapters. -/
def decimalString (n : Nat) : String :=
  if n = 0 then "0" else String.mk ((digitsRev n).reverse.map digitChar)

/-- The String(x) conversion of the collection v2.3 adapter, on an integer. -/
def jsString (n : Nat) : String := decimalString n

/-- The x.toLocaleString(fullwide, useGrouping false) conversion of the v2.1
and v2.3 adapters, on an integer. -/
def toLocaleStringFullwide (n : Nat) : String := decimalString n

/-- Parse a decimal digit string back to the integer it denotes. -/
def parseDecimal (s : String) : Nat := ofDigitsRev (s.data.reverse.map digitVal)

theorem digitsRevAux_mem_lt :
    ∀ (fuel n d : Nat), d ∈ digitsRevAux fuel n → d < 10 := by
  intro fuel
  induction fuel with
  | zero => intro n d h; simp [digitsRevAux] at h
  | succ f ih =>
    intro n d h
    by_cases hn : n = 0
    · simp [digitsRevAux, hn] at h
    · simp only [digitsRevAux, if_neg hn, List.mem_cons] at h
      rcases h with h | h
      · subst h; exact Nat.mod_lt _ (by omega)
      · exact ih _ _ h

theorem ofDigitsRev_digitsRevAux :
    ∀ (fuel n : Nat), n ≤ fuel → ofDigitsRev (digitsRevAux fuel n) = n := by
  intro fuel
  induction fuel with
  | zero => intro n h; interval_cases n; rfl
  | succ f ih =>
    intro n h
    by_cases hn : n = 0
    · simp [digitsRevAux, hn, ofDigitsRev]
    · have hdiv : n / 10 ≤ f := by
        have : n / 10 < n := Nat.div_lt_self (Nat.pos_of_ne_zero hn) (by omega)
        omega
      simp only [digitsRevAux, if_neg hn, ofDigitsRev, ih _ hdiv]
      exact Nat.mod_add_div n 10

theorem digitVal_digitChar {d : Nat} (h : d < 10) :
    digitVal (digitChar d) = d := by
  interval_cases d <;> decide

theorem digitChar_toNat {d : Nat} (h : d < 10) :
    (digitChar d).toNat = 48 + d := by
  interval_cases d <;> decide

/-- Round trip: the full-precision decimal rendering of an integer parses back
to exactly that integer. -/
theorem parseDecimal_decimalString (n : Nat) :
    parseDecimal (decimalString n) = n := by
  by_cases hn : n = 0
  · subst hn; decide
  · simp only [parseDecimal, decimalString, if_neg hn, String.data,
      ← List.map_reverse, List.reverse_reverse, List.map_map]
    have hmap : (digitsRev n).map (digitVal ∘ digitChar) = (digitsRev n).map id := by
      apply List.map_congr_left
      intro d hd
      simpa using digitVal_digitChar (digitsRevAux_mem_lt n n d hd)
    rw [hmap, List.map_id]
    exact ofDigitsRev_digitsRevAux n n (Nat.le_refl n)

/-- Every character of the decimal rendering is an ASCII digit: in particular
the string contains no exponent marker, sign or decimal point. -/
theorem decimalString_chars_are_digits (n : Nat) :
    ∀ c ∈ (decimalString n).data, 48 ≤ c.toNat ∧ c.toNat ≤ 57 := by
  intro c hc
  by_cases hn : n = 0
  · subst hn; simp [decimalString] at hc; subst hc; decide
  · simp only [decimalString, if_neg hn] at hc
    have hc2 : c ∈ (digitsRev n).reverse.map digitChar := hc
    rcases List.mem_map.mp hc2 with ⟨d, hd, hcd⟩
    have hd10 : d < 10 := digitsRevAux_mem_lt n n d (List.mem_reverse.mp hd)
    subst hcd
    rw [digitChar_toNat hd10]
    omega

/-!
Core data types of the contract-call boundary (spec section 6): the
contract-call backend exposes create on an address and abi pair giving a
contract handle, and a call on the handle resolving to a receipt whose status
field is 1 on success, or throwing.  A resolved value may lack the status
field or be null, so the receipt position is an Option and the status field
an Option Int; a throw is the error branch of Except.
-/

/-- Address and abi pair under which a contract version is registered. -/
structure ContractRef where
  address : String
  abi : List String
deriving DecidableEq, Repr

/-- The handle produced by the contract factory for a registered address and
abi pair. -/
structure ContractHandle where
  address : String
  abi : List String
deriving DecidableEq, Repr

/-- The create operation of the injected contract factory: builds the handle
for the given address and abi (pure construction, the factory performs no
I/O at create time). -/
def contractFactoryCreate (ref : ContractRef) : ContractHandle :=
  { address := ref.address, abi := ref.abi }

/-- An on-chain receipt as observed by the adapters: only its status field is
inspected (result?.status === 1), which may be absent. -/
structure Receipt where
  status : Option Int
deriving DecidableEq, Repr

/-- A thrown JS error: an assertion error from the precondition collaborator,
or any fault raised by an external call (network fault, revert, timeout). -/
inductive JsError where
  | assertion (message : String)
  | fault (message : String)
deriving DecidableEq, Repr

/-- The version-specific offer tuple built by each acceptOffer. -/
structure OfferPayload where
  loanERC20Denomination : String
  loanPrincipalAmount : String
  maximumRepaymentAmount : String
  nftCollateralContract : String
  nftCollateralId : String
  referrer : String
  loanDuration : Nat
  loanAdminFeeInBasisPoints : Nat
deriving DecidableEq, Repr

/-- The signature tuple built by each acceptOffer. -/
structure SignaturePayload where
  signer : String
  nonce : String
  expiry : Nat
  signature : String
deriving DecidableEq, Repr

/-- The borrower-settings tuple built by each acceptOffer. -/
structure BorrowerSettingsPayload where
  revenueSharePartner : String
  referralFeeInBasisPoints : Nat
deriving DecidableEq, Repr

/-- Arguments of a contract call issued by an adapter. -/
inductive CallArgs where
  | acceptArgs (offer : OfferPayload) (signature : SignaturePayload)
      (borrowerSettings : BorrowerSettingsPayload)
  | loanIdArg (id : Nat)
  | nonceArg (nonce : String)
deriving DecidableEq, Repr

/-- A contract call request: entry-point name and arguments. -/
structure CallRequest where
  function : String
  args : CallArgs
deriving DecidableEq, Repr

/-- The injected contract-call backend: resolves with a (possibly null)
receipt or throws. -/
abbrev ContractBackend := ContractHandle → CallRequest → Except JsError (Option Receipt)

/-- Normalized outcome of a receipt-returning action. -/
structure ActionResult where
  receipt : Option Receipt
  status : Bool
deriving DecidableEq, Repr

/-- The check result?.status === 1 performed on a resolved call value. -/
def jsOptStatusIsOne (result : Option Receipt) : Bool :=
  match result with
  | some r => match r.status with
    | some s => s == 1
    | none => false
  | none => false

/-!
Configuration (src/nftfi/config.js): the per-network parameter table.  Only
the parts the routing layer consumes are embedded: the loan.fixed subtree
with the registered name, address and abi of each contract version, and the
pagination defaults.  The mainnet values are embedded verbatim below.
-/

/-- Registered name, address and abi of one contract version. -/
structure ContractVersionConfig where
  name : String
  address : String
  abi : List String
deriving DecidableEq, Repr

/-- The loan.fixed.collection subtree of the configuration. -/
structure FixedCollectionConfig where
  v2 : ContractVersionConfig
  v2_3 : ContractVersionConfig
deriving DecidableEq, Repr

/-- The loan.fixed subtree of the configuration. -/
structure FixedConfig where
  collection : FixedCollectionConfig
  v1 : ContractVersionConfig
  v2 : ContractVersionConfig
  v2_1 : ContractVersionConfig
  v2_3 : ContractVersionConfig
deriving DecidableEq, Repr

/-- The loan subtree of the configuration. -/
structure LoanConfig where
  fixed : FixedConfig
deriving DecidableEq, Repr

/-- Pagination defaults of the configuration (config.js baseConfig.pagination:
limit 20, page 1). -/
structure PaginationConfig where
  limit : Nat
  page : Nat
deriving DecidableEq, Repr

/-- The slice of the network parameter table consumed by the routing layer. -/
structure Config where
  loan : LoanConfig
  pagination : PaginationConfig
deriving DecidableEq, Repr

/-- Pagination defaults from config.js baseConfig. -/
def baseConfigPagination : PaginationConfig := { limit := 20, page := 1 }

/-- Mainnet registered abi of v1.loan.fixed (config.js). -/
def mainnetLoanFixedV1Abi : List String :=
  [ "function cancelLoanCommitmentBeforeLoanHasBegun(uint256 nonce)",
    "function liquidateOverdueLoan(uint256 _loanId) nonpayable returns()",
    "function payBackLoan(uint256 _loanId)" ]

/-- Mainnet registered abi of v2.loan.fixed (config.js); v2-1.loan.fixed and
v2-3.loan.fixed register the same abi. -/
def mainnetLoanFixedV2Abi : List String :=
  [ "function cancelLoanCommitmentBeforeLoanHasBegun(uint256 nonce)",
    "function liquidateOverdueLoan(uint32 _loanId) nonpayable returns()",
    "function payBackLoan(uint32 _loanId)",
    "function acceptOffer(tuple(uint256 loanPrincipalAmount, uint256 maximumRepaymentAmount, uint256 nftCollateralId, address nftCollateralContract, uint32 loanDuration, uint16 loanAdminFeeInBasisPoints, address loanERC20Denomination, address referrer) _offer, tuple(uint256 nonce, uint256 expiry, address signer, bytes signature) _signature, tuple(address revenueSharePartner, uint16 referralFeeInBasisPoints) _borrowerSettings)",
    "function getWhetherNonceHasBeenUsedForUser(address _user, uint256 _nonce) view returns (bool)",
    "event LoanStarted(uint32 indexed loanId, address indexed borrower, address indexed lender, tuple(uint256 loanPrincipalAmount, uint256 maximumRepaymentAmount, uint256 nftCollateralId, address loanERC20Denomination, uint32 loanDuration, uint16 loanInterestRateForDurationInBasisPoints, uint16 loanAdminFeeInBasisPoints, address nftCollateralWrapper, uint64 loanStartTime, address nftCollateralContract, address borrower) loanTerms, tuple(address revenueSharePartner, uint16 revenueShareInBasisPoints, uint16 referralFeeInBasisPoints) loanExtras)" ]

/-- Mainnet registered abi of v2.loan.fixed.collection (config.js): note that
it declares an acceptOffer entry point and no acceptCollectionOffer. -/
def mainnetLoanFixedCollectionV2Abi : List String :=
  [ "function cancelLoanCommitmentBeforeLoanHasBegun(uint256 nonce)",
    "function liquidateOverdueLoan(uint32 _loanId) nonpayable returns()",
    "function payBackLoan(uint32 _loanId)",
    "function acceptOffer(tuple(uint256 loanPrincipalAmount, uint256 maximumRepaymentAmount, uint256 nftCollateralId, address nftCollateralContract, uint32 loanDuration, uint16 loanAdminFeeInBasisPoints, address loanERC20Denomination, address referrer) _offer, tuple(uint256 nonce, uint256 expiry, address signer, bytes signature) _signature, tuple(address revenueSharePartner, uint16 referralFeeInBasisPoints) _borrowerSettings)",
    "function getWhetherNonceHasBeenUsedForUser(address _user, uint256 _nonce) view returns (bool)",
    "event LoanStarted(uint32 indexed loanId, address indexed borrower, address indexed lender, tuple(uint256 loanPrincipalAmount, uint256 maximumRepaymentAmount, uint256 nftCollateralId, address loanERC20Denomination, uint32 loanDuration, uint16 loanInterestRateForDurationInBasisPoints, uint16 loanAdminFeeInBasisPoints, address nftCollateralWrapper, uint64 loanStartTime, address nftCollateralContract, address borrower) loanTerms, tuple(address revenueSharePartner, uint16 revenueShareInBasisPoints, uint16 referralFeeInBasisPoints) loanExtras)" ]

/-- Mainnet registered abi of v2-3.loan.fixed.collection (config.js): declares
both acceptCollectionOffer and acceptOffer entry points. -/
def mainnetLoanFixedCollectionV2_3Abi : List String :=
  [ "function cancelLoanCommitmentBeforeLoanHasBegun(uint256 _nonce)",
    "function liquidateOverdueLoan(uint32 _loanId)",
    "function payBackLoan(uint32 _loanId)",
    "function acceptCollectionOffer(tuple(uint256 loanPrincipalAmount, uint256 maximumRepaymentAmount, uint256 nftCollateralId, address nftCollateralContract, uint32 loanDuration, uint16 loanAdminFeeInBasisPoints, address loanERC20Denomination, address referrer) _offer, tuple(uint256 nonce, uint256 expiry, address signer, bytes signature) _signature, tuple(address revenueSharePartner, uint16 referralFeeInBasisPoints) _borrowerSettings)",
    "function acceptOffer(tuple(uint256 loanPrincipalAmount, uint256 maximumRepaymentAmount, uint256 nftCollateralId, address nftCollateralContract, uint32 loanDuration, uint16 loanAdminFeeInBasisPoints, address loanERC20Denomination, address referrer), tuple(uint256 nonce, uint256 expiry, address signer, bytes signature), tuple(address revenueSharePartner, uint16 referralFeeInBasisPoints)) returns (uint32)",
    "function getWhetherNonceHasBeenUsedForUser(address _user, uint256 _nonce) view returns (bool)",
    "event LoanStarted(uint32 indexed loanId, address indexed borrower, address indexed lender, tuple(uint256 loanPrincipalAmount, uint256 maximumRepaymentAmount, uint256 nftCollateralId, address loanERC20Denomination, uint32 loanDuration, uint16 loanInterestRateForDurationInBasisPoints, uint16 loanAdminFeeInBasisPoints, address nftCollateralWrapper, uint64 loanStartTime, address nftCollateralContract, address borrower) loanTerms, tuple(address revenueSharePartner, uint16 revenueShareInBasisPoints, uint16 referralFeeInBasisPoints) loanExtras)" ]

/-- The mainnet slice of the network parameter table (config.js mainnetConfig):
the loan.fixed subtree with registered names, addresses and abis, and the
pagination defaults inherited from baseConfig. -/
def mainnetConfig : Config :=
  { loan :=
    { fixed :=
      { collection :=
        { v2 :=
          { name := "v2.loan.fixed.collection",
            address := "0xE52Cec0E90115AbeB3304BaA36bc2655731f7934",
            abi := mainnetLoanFixedCollectionV2Abi },
          v2_3 :=
          { name := "v2-3.loan.fixed.collection",
            address := "0xD0C6e59B50C32530C627107F50Acc71958C4341F",
            abi := mainnetLoanFixedCollectionV2_3Abi } },
        v1 :=
        { name := "v1.loan.fixed",
          address := "0x88341d1a8F672D2780C8dC725902AAe72F143B0c",
          abi := mainnetLoanFixedV1Abi },
        v2 :=
        { name := "v2.loan.fixed",
          address := "0xf896527c49b44aAb3Cf22aE356Fa3AF8E331F280",
          abi := mainnetLoanFixedV2Abi },
        v2_1 :=
        { name := "v2-1.loan.fixed",
          address := "0x8252Df1d8b29057d1Afe3062bf5a64D503152BC8",
          abi := mainnetLoanFixedV2Abi },
        v2_3 :=
        { name := "v2-3.loan.fixed",
          address := "0xd0a40eB7FD94eE97102BA8e9342243A2b2E22207",
          abi := mainnetLoanFixedV2Abi } } },
    pagination := baseConfigPagination }

/-- True when the abi registers a function entry point of the given name. -/
def abiDeclaresFunction (abi : List String) (fn : String) : Bool :=
  abi.any (fun d => ("function " ++ fn ++ "(").data.isPrefixOf d.data)

/-!
The canonical offer description supplied by the caller (loans.js begin doc
block): collateral NFT, loan terms, lender, signature, fee and the target
contract-version name.
-/

/-- Loan terms of an offer (options.offer.terms.loan). -/
structure LoanTerms where
  currency : String
  principal : Nat
  repayment : Nat
  duration : Nat
  expiry : Nat
deriving DecidableEq, Repr

/-- The terms object of an offer (options.offer.terms). -/
structure OfferTerms where
  loan : LoanTerms
deriving DecidableEq, Repr

/-- Collateral NFT of an offer (options.offer.nft). -/
structure OfferNft where
  address : String
  id : String
deriving DecidableEq, Repr

/-- Lender of an offer (options.offer.lender). -/
structure OfferLender where
  address : String
  nonce : String
deriving DecidableEq, Repr

/-- Contract selector (options.offer.nftfi.contract / options.nftfi.contract). -/
structure ContractInfo where
  name : String
deriving DecidableEq, Repr

/-- Fee of an offer (options.offer.nftfi.fee). -/
structure OfferFee where
  bps : Nat
deriving DecidableEq, Repr

/-- The nftfi object of an offer (options.offer.nftfi). -/
structure OfferNftfi where
  fee : OfferFee
  contract : ContractInfo
deriving DecidableEq, Repr

/-- A canonical offer as supplied to loans.begin. -/
structure Offer where
  nft : OfferNft
  lender : OfferLender
  terms : OfferTerms
  signature : String
  nftfi : OfferNftfi
deriving DecidableEq, Repr

/-!
Contract adapters.  Each JS adapter instance owns a private contract field
(initially absent) and a factory; this becomes an AdapterState holding the
optional cached handle plus a counter of factory create calls, so that the
construction-time and first-use behaviour is observable.  Every public
operation returns its response, the successor state, and the list of contract
call requests it issued.
-/

/-- State of one adapter instance: the cached contract handle (the private
contract field, absent until assigned) and how many times the factory create
has been invoked on behalf of this instance. -/
structure AdapterState where
  contract : Option ContractHandle
  factoryCalls : Nat
deriving DecidableEq, Repr

/-- Response, successor state and issued contract calls of one adapter
operation. -/
structure OpOutcome (ρ : Type) where
  response : ρ
  state : AdapterState
  requests : List CallRequest
deriving DecidableEq, Repr

/-- The zero address injected for referrer and revenueSharePartner. -/
def zeroAddress : String := "0x0000000000000000000000000000000000000000"

/-- The signature tuple each acceptOffer builds from the offer. -/
def jsSignaturePayload (offer : Offer) : SignaturePayload :=
  { signer := offer.lender.address
    nonce := offer.lender.nonce
    expiry := offer.terms.loan.expiry
    signature := offer.signature }

/-- The borrower-settings tuple each acceptOffer builds: zero address for the
revenue-share partner and zero basis points for the referral fee. -/
def jsBorrowerSettingsDefault : BorrowerSettingsPayload :=
  { revenueSharePartner := zeroAddress, referralFeeInBasisPoints := 0 }

/-!
LoansFixedV2_3 (src/unnamed/part_000, first class): lazy contract getter,
serialization via toLocaleString fullwide, entry point acceptOffer.
-/

/-- Registered address and abi the v2.3 adapter keys its handle by. -/
def LoansFixedV2_3.ref (cfg : Config) : ContractRef :=
  { address := cfg.loan.fixed.v2_3.address, abi := cfg.loan.fixed.v2_3.abi }

/-- Constructor of the v2.3 adapter: stores config and factory only; the
private contract field stays unset and the factory is not invoked. -/
def LoansFixedV2_3.init : AdapterState := { contract := none, factoryCalls := 0 }

/-- The private contract getter of the v2.3 adapter: creates the handle via
the factory on first use and caches it. -/
def LoansFixedV2_3.getContract (cfg : Config) (s : AdapterState) :
    ContractHandle × AdapterState :=
  match s.contract with
  | some c => (c, s)
  | none =>
    let c := contractFactoryCreate (LoansFixedV2_3.ref cfg)
    (c, { contract := some c, factoryCalls := s.factoryCalls + 1 })

/-- The offer tuple the v2.3 acceptOffer builds: amounts serialized with
toLocaleString fullwide. -/
def LoansFixedV2_3.offerPayload (offer : Offer) : OfferPayload :=
  { loanERC20Denomination := offer.terms.loan.currency
    loanPrincipalAmount := toLocaleStringFullwide offer.terms.loan.principal
    maximumRepaymentAmount := toLocaleStringFullwide offer.terms.loan.repayment
    nftCollateralContract := offer.nft.address
    nftCollateralId := offer.nft.id
    referrer := zeroAddress
    loanDuration := offer.terms.loan.duration
    loanAdminFeeInBasisPoints := offer.nftfi.fee.bps }

/-- acceptOffer of the v2.3 adapter. -/
def LoansFixedV2_3.acceptOffer (cfg : Config) (backend : ContractBackend)
    (offer : Offer) (s : AdapterState) : OpOutcome ActionResult :=
  let p := LoansFixedV2_3.getContract cfg s
  let req : CallRequest :=
    { function := "acceptOffer",
      args := .acceptArgs (LoansFixedV2_3.offerPayload offer)
        (jsSignaturePayload offer) jsBorrowerSettingsDefault }
  match backend p.1 req with
  | .ok result =>
    { response := { receipt := result, status := jsOptStatusIsOne result },
      state := p.2, requests := [req] }
  | .error _ =>
    { response := { receipt := none, status := false },
      state := p.2, requests := [req] }

/-- liquidateOverdueLoan of the v2.3 adapter. -/
def LoansFixedV2_3.liquidateOverdueLoan (cfg : Config) (backend : ContractBackend)
    (loanId : Nat) (s : AdapterState) : OpOutcome Bool :=
  let p := LoansFixedV2_3.getContract cfg s
  let req : CallRequest := { function := "liquidateOverdueLoan", args := .loanIdArg loanId }
  match backend p.1 req with
  | .ok result => { response := jsOptStatusIsOne result, state := p.2, requests := [req] }
  | .error _ => { response := false, state := p.2, requests := [req] }

/-- payBackLoan of the v2.3 adapter. -/
def LoansFixedV2_3.payBackLoan (cfg : Config) (backend : ContractBackend)
    (loanId : Nat) (s : AdapterState) : OpOutcome ActionResult :=
  let p := LoansFixedV2_3.getContract cfg s
  let req : CallRequest := { function := "payBackLoan", args := .loanIdArg loanId }
  match backend p.1 req with
  | .ok result =>
    { response := { receipt := result, status := jsOptStatusIsOne result },
      state := p.2, requests := [req] }
  | .error _ =>
    { response := { receipt := none, status := false },
      state := p.2, requests := [req] }

/-- cancelLoanCommitmentBeforeLoanHasBegun of the v2.3 adapter. -/
def LoansFixedV2_3.cancelLoanCommitmentBeforeLoanHasBegun (cfg : Config)
    (backend : ContractBackend) (nonce : String) (s : AdapterState) : OpOutcome Bool :=
  let p := LoansFixedV2_3.getContract cfg s
  let req : CallRequest :=
    { function := "cancelLoanCommitmentBeforeLoanHasBegun", args := .nonceArg nonce }
  match backend p.1 req with
  | .ok result => { response := jsOptStatusIsOne result, state := p.2, requests := [req] }
  | .error _ => { response := false, state := p.2, requests := [req] }

/-!
LoansFixedCollectionV2_3 (src/nftfi/loans/fixed/collection/v2_3/index.js):
lazy contract getter, serialization via String, entry point
acceptCollectionOffer for the externally named acceptOffer.
-/

/-- Registered address and abi the collection v2.3 adapter keys its handle by. -/
def LoansFixedCollectionV2_3.ref (cfg : Config) : ContractRef :=
  { address := cfg.loan.fixed.collection.v2_3.address,
    abi := cfg.loan.fixed.collection.v2_3.abi }

/-- Constructor of the collection v2.3 adapter: stores config and factory
only; the private contract field stays unset and the factory is not invoked. -/
def LoansFixedCollectionV2_3.init : AdapterState := { contract := none, factoryCalls := 0 }

/-- The private contract getter of the collection v2.3 adapter. -/
def LoansFixedCollectionV2_3.getContract (cfg : Config) (s : AdapterState) :
    ContractHandle × AdapterState :=
  match s.contract with
  | some c => (c, s)
  | none =>
    let c := contractFactoryCreate (LoansFixedCollectionV2_3.ref cfg)
    (c, { contract := some c, factoryCalls := s.factoryCalls + 1 })

/-- The offer tuple the collection v2.3 acceptOffer builds: amounts serialized
with String. -/
def LoansFixedCollectionV2_3.offerPayload (offer : Offer) : OfferPayload :=
  { loanERC20Denomination := offer.terms.loan.currency
    loanPrincipalAmount := jsString offer.terms.loan.principal
    maximumRepaymentAmount := jsString offer.terms.loan.repayment
    nftCollateralContract := offer.nft.address
    nftCollateralId := offer.nft.id
    referrer := zeroAddress
    loanDuration := offer.terms.loan.duration
    loanAdminFeeInBasisPoints := offer.nftfi.fee.bps }

/-- acceptOffer of the collection v2.3 adapter: invokes the entry point named
acceptCollectionOffer. -/
def LoansFixedCollectionV2_3.acceptOffer (cfg : Config) (backend : ContractBackend)
    (offer : Offer) (s : AdapterState) : OpOutcome ActionResult :=
  let p := LoansFixedCollectionV2_3.getContract cfg s
  let req : CallRequest :=
    { function := "acceptCollectionOffer",
      args := .acceptArgs (LoansFixedCollectionV2_3.offerPayload offer)
        (jsSignaturePayload offer) jsBorrowerSettingsDefault }
  match backend p.1 req with
  | .ok result =>
    { response := { receipt := result, status := jsOptStatusIsOne result },
      state := p.2, requests := [req] }
  | .error _ =>
    { response := { receipt := none, status := false },
      state := p.2, requests := [req] }

/-- liquidateOverdueLoan of the collection v2.3 adapter. -/
def LoansFixedCollectionV2_3.liquidateOverdueLoan (cfg : Config)
    (backend : ContractBackend) (loanId : Nat) (s : AdapterState) : OpOutcome Bool :=
  let p := LoansFixedCollectionV2_3.getContract cfg s
  let req : CallRequest := { function := "liquidateOverdueLoan", args := .loanIdArg loanId }
  match backend p.1 req with
  | .ok result => { response := jsOptStatusIsOne result, state := p.2, requests := [req] }
  | .error _ => { response := false, state := p.2, requests := [req] }

/-- payBackLoan of the collection v2.3 adapter. -/
def LoansFixedCollectionV2_3.payBackLoan (cfg : Config) (backend : ContractBackend)
    (loanId : Nat) (s : AdapterState) : OpOutcome ActionResult :=
  let p := LoansFixedCollectionV2_3.getContract cfg s
  let req : CallRequest := { function := "payBackLoan", args := .loanIdArg loanId }
  match backend p.1 req with
  | .ok result =>
    { response := { receipt := result, status := jsOptStatusIsOne result },
      state := p.2, requests := [req] }
  | .error _ =>
    { response := { receipt := none, status := false },
      state := p.2, requests := [req] }

/-- cancelLoanCommitmentBeforeLoanHasBegun of the collection v2.3 adapter. -/
def LoansFixedCollectionV2_3.cancelLoanCommitmentBeforeLoanHasBegun (cfg : Config)
    (backend : ContractBackend) (nonce : String) (s : AdapterState) : OpOutcome Bool :=
  let p := LoansFixedCollectionV2_3.getContract cfg s
  let req : CallRequest :=
    { function := "cancelLoanCommitmentBeforeLoanHasBegun", args := .nonceArg nonce }
  match backend p.1 req with
  | .ok result => { response := jsOptStatusIsOne result, state := p.2, requests := [req] }
  | .error _ => { response := false, state := p.2, requests := [req] }

/-!
LoansFixedV2_1 (src/unnamed/part_000, second class): unlike the v2.3
adapters, its constructor invokes the contract factory immediately and the
operations access the private contract field directly, with no lazy getter.
An operation run in a state whose contract field is unset (impossible after
this constructor) would raise a TypeError inside the try block, which the
catch converts to the failure shape without issuing any call.
-/

/-- Registered address and abi the v2.1 adapter keys its handle by. -/
def LoansFixedV2_1.ref (cfg : Config) : ContractRef :=
  { address := cfg.loan.fixed.v2_1.address, abi := cfg.loan.fixed.v2_1.abi }

/-- Constructor of the v2.1 adapter: invokes the contract factory at
construction time and stores the created handle in the private field. -/
def LoansFixedV2_1.init (cfg : Config) : AdapterState :=
  { contract := some (contractFactoryCreate (LoansFixedV2_1.ref cfg)), factoryCalls := 1 }

/-- The offer tuple the v2.1 acceptOffer builds: amounts serialized with
toLocaleString fullwide. -/
def LoansFixedV2_1.offerPayload (offer : Offer) : OfferPayload :=
  { loanERC20Denomination := offer.terms.loan.currency
    loanPrincipalAmount := toLocaleStringFullwide offer.terms.loan.principal
    maximumRepaymentAmount := toLocaleStringFullwide offer.terms.loan.repayment
    nftCollateralContract := offer.nft.address
    nftCollateralId := offer.nft.id
    referrer := zeroAddress
    loanDuration := offer.terms.loan.duration
    loanAdminFeeInBasisPoints := offer.nftfi.fee.bps }

/-- acceptOffer of the v2.1 adapter. -/
def LoansFixedV2_1.acceptOffer (backend : ContractBackend) (offer : Offer)
    (s : AdapterState) : OpOutcome ActionResult :=
  match s.contract with
  | none =>
    { response := { receipt := none, status := false }, state := s, requests := [] }
  | some c =>
    let req : CallRequest :=
      { function := "acceptOffer",
        args := .acceptArgs (LoansFixedV2_1.offerPayload offer)
          (jsSignaturePayload offer) jsBorrowerSettingsDefault }
    match backend c req with
    | .ok result =>
      { response := { receipt := result, status := jsOptStatusIsOne result },
        state := s, requests := [req] }
    | .error _ =>
      { response := { receipt := none, status := false },
        state := s, requests := [req] }

/-- liquidateOverdueLoan of the v2.1 adapter. -/
def LoansFixedV2_1.liquidateOverdueLoan (backend : ContractBackend) (loanId : Nat)
    (s : AdapterState) : OpOutcome Bool :=
  match s.contract with
  | none => { response := false, state := s, requests := [] }
  | some c =>
    let req : CallRequest := { function := "liquidateOverdueLoan", args := .loanIdArg loanId }
    match backend c req with
    | .ok result => { response := jsOptStatusIsOne result, state := s, requests := [req] }
    | .error _ => { response := false, state := s, requests := [req] }

/-- payBackLoan of the v2.1 adapter. -/
def LoansFixedV2_1.payBackLoan (backend : ContractBackend) (loanId : Nat)
    (s : AdapterState) : OpOutcome ActionResult :=
  match s.contract with
  | none =>
    { response := { receipt := none, status := false }, state := s, requests := [] }
  | some c =>
    let req : CallRequest := { function := "payBackLoan", args := .loanIdArg loanId }
    match backend c req with
    | .ok result =>
      { response := { receipt := result, status := jsOptStatusIsOne result },
        state := s, requests := [req] }
    | .error _ =>
      { response := { receipt := none, status := false },
        state := s, requests := [req] }

/-- cancelLoanCommitmentBeforeLoanHasBegun of the v2.1 adapter. -/
def LoansFixedV2_1.cancelLoanCommitmentBeforeLoanHasBegun (backend : ContractBackend)
    (nonce : String) (s : AdapterState) : OpOutcome Bool :=
  match s.contract with
  | none => { response := false, state := s, requests := [] }
  | some c =>
    let req : CallRequest :=
      { function := "cancelLoanCommitmentBeforeLoanHasBegun", args := .nonceArg nonce }
    match backend c req with
    | .ok result => { response := jsOptStatusIsOne result, state := s, requests := [req] }
    | .error _ => { response := false, state := s, requests := [req] }

/-!
The v1, v2 and v2 collection adapter source files are not part of the
sources at hand; only loans.js (their caller) and config.js (their registered
names, addresses and abis) are.  They are modelled from the spec below:
uniform adapter shape (spec 4.1) with a lazily created, cached handle,
full-precision decimal amount serialization, fail-closed call handling and
success exactly on receipt status 1.
-/

/-- Modelled from the spec: the v1 adapter (its source file is missing).
Per spec 4.1 it lazily creates its handle, keyed by the registered v1 address
and abi.  Its registered abi declares only the liquidateOverdueLoan,
payBackLoan and cancelLoanCommitmentBeforeLoanHasBegun entry points, and the
router never dispatches begin to it, so only those three operations are
modelled. -/
def LoansFixedV1.ref (cfg : Config) : ContractRef :=
  { address := cfg.loan.fixed.v1.address, abi := cfg.loan.fixed.v1.abi }

/-- Modelled from the spec: construction of the v1 adapter performs no
factory call (spec 4.1, lazy instantiation). -/
def LoansFixedV1.init : AdapterState := { contract := none, factoryCalls := 0 }

/-- Modelled from the spec: lazy cached contract getter of the v1 adapter. -/
def LoansFixedV1.getContract (cfg : Config) (s : AdapterState) :
    ContractHandle × AdapterState :=
  match s.contract with
  | some c => (c, s)
  | none =>
    let c := contractFactoryCreate (LoansFixedV1.ref cfg)
    (c, { contract := some c, factoryCalls := s.factoryCalls + 1 })

/-- Modelled from the spec: liquidateOverdueLoan of the v1 adapter, true only
on success code 1, fail-closed on a throw. -/
def LoansFixedV1.liquidateOverdueLoan (cfg : Config) (backend : ContractBackend)
    (loanId : Nat) (s : AdapterState) : OpOutcome Bool :=
  let p := LoansFixedV1.getContract cfg s
  let req : CallRequest := { function := "liquidateOverdueLoan", args := .loanIdArg loanId }
  match backend p.1 req with
  | .ok result => { response := jsOptStatusIsOne result, state := p.2, requests := [req] }
  | .error _ => { response := false, state := p.2, requests := [req] }

/-- Modelled from the spec: payBackLoan of the v1 adapter, receipt and status
shape, fail-closed on a throw. -/
def LoansFixedV1.payBackLoan (cfg : Config) (backend : ContractBackend)
    (loanId : Nat) (s : AdapterState) : OpOutcome ActionResult :=
  let p := LoansFixedV1.getContract cfg s
  let req : CallRequest := { function := "payBackLoan", args := .loanIdArg loanId }
  match backend p.1 req with
  | .ok result =>
    { response := { receipt := result, status := jsOptStatusIsOne result },
      state := p.2, requests := [req] }
  | .error _ =>
    { response := { receipt := none, status := false },
      state := p.2, requests := [req] }

/-- Modelled from the spec: cancelLoanCommitmentBeforeLoanHasBegun of the v1
adapter. -/
def LoansFixedV1.cancelLoanCommitmentBeforeLoanHasBegun (cfg : Config)
    (backend : ContractBackend) (nonce : String) (s : AdapterState) : OpOutcome Bool :=
  let p := LoansFixedV1.getContract cfg s
  let req : CallRequest :=
    { function := "cancelLoanCommitmentBeforeLoanHasBegun", args := .nonceArg nonce }
  match backend p.1 req with
  | .ok result => { response := jsOptStatusIsOne result, state := p.2, requests := [req] }
  | .error _ => { response := false, state := p.2, requests := [req] }

/-- Modelled from the spec: the v2 adapter (its source file is missing).
Registered address and abi it keys its handle by. -/
def LoansFixedV2.ref (cfg : Config) : ContractRef :=
  { address := cfg.loan.fixed.v2.address, abi := cfg.loan.fixed.v2.abi }

/-- Modelled from the spec: construction of the v2 adapter performs no
factory call (spec 4.1, lazy instantiation). -/
def LoansFixedV2.init : AdapterState := { contract := none, factoryCalls := 0 }

/-- Modelled from the spec: lazy cached contract getter of the v2 adapter. -/
def LoansFixedV2.getContract (cfg : Config) (s : AdapterState) :
    ContractHandle × AdapterState :=
  match s.contract with
  | some c => (c, s)
  | none =>
    let c := contractFactoryCreate (LoansFixedV2.ref cfg)
    (c, { contract := some c, factoryCalls := s.factoryCalls + 1 })

/-- Modelled from the spec: the offer tuple of the v2 acceptOffer, amounts
serialized as full-precision decimal strings. -/
def LoansFixedV2.offerPayload (offer : Offer) : OfferPayload :=
  { loanERC20Denomination := offer.terms.loan.currency
    loanPrincipalAmount := decimalString offer.terms.loan.principal
    maximumRepaymentAmount := decimalString offer.terms.loan.repayment
    nftCollateralContract := offer.nft.address
    nftCollateralId := offer.nft.id
    referrer := zeroAddress
    loanDuration := offer.terms.loan.duration
    loanAdminFeeInBasisPoints := offer.nftfi.fee.bps }

/-- Modelled from the spec: acceptOffer of the v2 adapter; individual-loan
adapters call an acceptOffer-named entry point (spec 4.1). -/
def LoansFixedV2.acceptOffer (cfg : Config) (backend : ContractBackend)
    (offer : Offer) (s : AdapterState) : OpOutcome ActionResult :=
  let p := LoansFixedV2.getContract cfg s
  let req : CallRequest :=
    { function := "acceptOffer",
      args := .acceptArgs (LoansFixedV2.offerPayload offer)
        (jsSignaturePayload offer) jsBorrowerSettingsDefault }
  match backend p.1 req with
  | .ok result =>
    { response := { receipt := result, status := jsOptStatusIsOne result },
      state := p.2, requests := [req] }
  | .error _ =>
    { response := { receipt := none, status := false },
      state := p.2, requests := [req] }

/-- Modelled from the spec: liquidateOverdueLoan of the v2 adapter. -/
def LoansFixedV2.liquidateOverdueLoan (cfg : Config) (backend : ContractBackend)
    (loanId : Nat) (s : AdapterState) : OpOutcome Bool :=
  let p := LoansFixedV2.getContract cfg s
  let req : CallRequest := { function := "liquidateOverdueLoan", args := .loanIdArg loanId }
  match backend p.1 req with
  | .ok result => { response := jsOptStatusIsOne result, state := p.2, requests := [req] }
  | .error _ => { response := false, state := p.2, requests := [req] }

/-- Modelled from the spec: payBackLoan of the v2 adapter. -/
def LoansFixedV2.payBackLoan (cfg : Config) (backend : ContractBackend)
    (loanId : Nat) (s : AdapterState) : OpOutcome ActionResult :=
  let p := LoansFixedV2.getContract cfg s
  let req : CallRequest := { function := "payBackLoan", args := .loanIdArg loanId }
  match backend p.1 req with
  | .ok result =>
    { response := { receipt := result, status := jsOptStatusIsOne result },
      state := p.2, requests := [req] }
  | .error _ =>
    { response := { receipt := none, status := false },
      state := p.2, requests := [req] }

/-- Modelled from the spec: cancelLoanCommitmentBeforeLoanHasBegun of the v2
adapter. -/
def LoansFixedV2.cancelLoanCommitmentBeforeLoanHasBegun (cfg : Config)
    (backend : ContractBackend) (nonce : String) (s : AdapterState) : OpOutcome Bool :=
  let p := LoansFixedV2.getContract cfg s
  let req : CallRequest :=
    { function := "cancelLoanCommitmentBeforeLoanHasBegun", args := .nonceArg nonce }
  match backend p.1 req with
  | .ok result => { response := jsOptStatusIsOne result, state := p.2, requests := [req] }
  | .error _ => { response := false, state := p.2, requests := [req] }

/-- Modelled from the spec: the v2 collection adapter (its source file is
missing).  Registered address and abi it keys its handle by. -/
def LoansFixedCollectionV2.ref (cfg : Config) : ContractRef :=
  { address := cfg.loan.fixed.collection.v2.address,
    abi := cfg.loan.fixed.collection.v2.abi }

/-- Modelled from the spec: construction of the v2 collection adapter
performs no factory call (spec 4.1, lazy instantiation). -/
def LoansFixedCollectionV2.init : AdapterState := { contract := none, factoryCalls := 0 }

/-- Modelled from the spec: lazy cached contract getter of the v2 collection
adapter. -/
def LoansFixedCollectionV2.getContract (cfg : Config) (s : AdapterState) :
    ContractHandle × AdapterState :=
  match s.contract with
  | some c => (c, s)
  | none =>
    let c := contractFactoryCreate (LoansFixedCollectionV2.ref cfg)
    (c, { contract := some c, factoryCalls := s.factoryCalls + 1 })

/-- Modelled from the spec: the offer tuple of the v2 collection acceptOffer,
amounts serialized as full-precision decimal strings. -/
def LoansFixedCollectionV2.offerPayload (offer : Offer) : OfferPayload :=
  { loanERC20Denomination := offer.terms.loan.currency
    loanPrincipalAmount := decimalString offer.terms.loan.principal
    maximumRepaymentAmount := decimalString offer.terms.loan.repayment
    nftCollateralContract := offer.nft.address
    nftCollateralId := offer.nft.id
    referrer := zeroAddress
    loanDuration := offer.terms.loan.duration
    loanAdminFeeInBasisPoints := offer.nftfi.fee.bps }

/-- Modelled from the spec: acceptOffer of the v2 collection adapter.  The
spec text for collection adapters names the entry point
acceptCollectionOffer, but the registered v2 collection abi in config.js
declares an acceptOffer entry point and no acceptCollectionOffer, so the
underlying call can only target acceptOffer; the model follows the registered
abi. -/
def LoansFixedCollectionV2.acceptOffer (cfg : Config) (backend : ContractBackend)
    (offer : Offer) (s : AdapterState) : OpOutcome ActionResult :=
  let p := LoansFixedCollectionV2.getContract cfg s
  let req : CallRequest :=
    { function := "acceptOffer",
      args := .acceptArgs (LoansFixedCollectionV2.offerPayload offer)
        (jsSignaturePayload offer) jsBorrowerSettingsDefault }
  match backend p.1 req with
  | .ok result =>
    { response := { receipt := result, status := jsOptStatusIsOne result },
      state := p.2, requests := [req] }
  | .error _ =>
    { response := { receipt := none, status := false },
      state := p.2, requests := [req] }

/-- Modelled from the spec: liquidateOverdueLoan of the v2 collection adapter. -/
def LoansFixedCollectionV2.liquidateOverdueLoan (cfg : Config) (backend : ContractBackend)
    (loanId : Nat) (s : AdapterState) : OpOutcome Bool :=
  let p := LoansFixedCollectionV2.getContract cfg s
  let req : CallRequest := { function := "liquidateOverdueLoan", args := .loanIdArg loanId }
  match backend p.1 req with
  | .ok result => { response := jsOptStatusIsOne result, state := p.2, requests := [req] }
  | .error _ => { response := false, state := p.2, requests := [req] }

/-- Modelled from the spec: payBackLoan of the v2 collection adapter. -/
def LoansFixedCollectionV2.payBackLoan (cfg : Config) (backend : ContractBackend)
    (loanId : Nat) (s : AdapterState) : OpOutcome ActionResult :=
  let p := LoansFixedCollectionV2.getContract cfg s
  let req : CallRequest := { function := "payBackLoan", args := .loanIdArg loanId }
  match backend p.1 req with
  | .ok result =>
    { response := { receipt := result, status := jsOptStatusIsOne result },
      state := p.2, requests := [req] }
  | .error _ =>
    { response := { receipt := none, status := false },
      state := p.2, requests := [req] }

/-- Modelled from the spec: cancelLoanCommitmentBeforeLoanHasBegun of the v2
collection adapter. -/
def LoansFixedCollectionV2.cancelLoanCommitmentBeforeLoanHasBegun (cfg : Config)
    (backend : ContractBackend) (nonce : String) (s : AdapterState) : OpOutcome Bool :=
  let p := LoansFixedCollectionV2.getContract cfg s
  let req : CallRequest :=
    { function := "cancelLoanCommitmentBeforeLoanHasBegun", args := .nonceArg nonce }
  match backend p.1 req with
  | .ok result => { response := jsOptStatusIsOne result, state := p.2, requests := [req] }
  | .error _ => { response := false, state := p.2, requests := [req] }

/-!
Loan action router (src/nftfi/loans.js).  Every verb first runs the injected
assertion collaborator (hasSigner, or hasAddress for get), then dispatches on
the contract-version name; any error thrown inside the try block is converted
by the injected error collaborator into a structured result.  The assertion
and error collaborators are not part of the sources at hand and are modelled
from the spec.  Router outcomes carry the response, the updated adapter
states and a trace of every contract call issued, tagged with the adapter
that issued it.
-/

/-- Modelled from the spec: the account or signer assertion collaborator
fails with an assertion error if no signer is configured (spec 6 and 7a). -/
def assertionHasSigner (hasSigner : Bool) : Except JsError Unit :=
  if hasSigner then Except.ok () else Except.error (JsError.assertion "signer required")

/-- Modelled from the spec: the address assertion collaborator fails with an
assertion error if no account address is configured (spec 6 and 7a). -/
def assertionHasAddress (hasAddress : Bool) : Except JsError Unit :=
  if hasAddress then Except.ok () else Except.error (JsError.assertion "address required")

/-- The structured result the injected error collaborator produces from a
thrown error. -/
structure HandledError where
  source : JsError
deriving DecidableEq, Repr

/-- Modelled from the spec: the injected error collaborator maps a thrown
error to a structured result handed back to the caller (spec 7a: propagated
to the caller as a structured error, not silently swallowed). -/
def errorHandle (e : JsError) : HandledError := { source := e }

/-- The six adapters registered on the fixed collaborator of the router. -/
inductive AdapterId where
  | v1
  | v2
  | v2_1
  | v2_3
  | collectionV2
  | collectionV2_3
deriving DecidableEq, Repr

/-- States of the six adapter instances held by the router. -/
structure FixedAdapters where
  v1 : AdapterState
  v2 : AdapterState
  v2_1 : AdapterState
  v2_3 : AdapterState
  collectionV2 : AdapterState
  collectionV2_3 : AdapterState
deriving DecidableEq, Repr

/-- The freshly constructed adapter set: every adapter built by its
constructor. -/
def FixedAdapters.init (cfg : Config) : FixedAdapters :=
  { v1 := LoansFixedV1.init
    v2 := LoansFixedV2.init
    v2_1 := LoansFixedV2_1.init cfg
    v2_3 := LoansFixedV2_3.init
    collectionV2 := LoansFixedCollectionV2.init
    collectionV2_3 := LoansFixedCollectionV2_3.init }

/-- Response, adapter states and tagged contract-call trace of one router
verb. -/
structure RouterOutcome (ρ : Type) where
  response : ρ
  fixed : FixedAdapters
  trace : List (AdapterId × CallRequest)
deriving DecidableEq, Repr

/-- Response of loans.begin: the adapter result, the structured validation
error of the default branch, or the handled form of a thrown error. -/
inductive BeginResponse where
  | action (r : ActionResult)
  | validationErrors (field : String) (messages : List String)
  | handled (e : HandledError)
deriving DecidableEq, Repr

/-- Response of loans.liquidate and loans.revokeOffer: a success flag or the
handled form of a thrown error. -/
inductive SuccessResponse where
  | success (b : Bool)
  | handled (e : HandledError)
deriving DecidableEq, Repr

/-- Response of loans.repay: the adapter result, the uninitialized response
variable (undefined) when no case of the switch matches, or the handled form
of a thrown error. -/
inductive RepayResponse where
  | action (r : ActionResult)
  | undef
  | handled (e : HandledError)
deriving DecidableEq, Repr

/-- loans.begin: signer assertion, then dispatch on
options.offer.nftfi.contract.name over exactly four cases, with the default
branch returning the structured not-supported validation error. -/
def Loans.begin (cfg : Config) (backend : ContractBackend) (hasSigner : Bool)
    (offer : Offer) (fx : FixedAdapters) : RouterOutcome BeginResponse :=
  match assertionHasSigner hasSigner with
  | .error e => { response := .handled (errorHandle e), fixed := fx, trace := [] }
  | .ok _ =>
    match offer.nftfi.contract.name with
    | "v2-1.loan.fixed" =>
      let o := LoansFixedV2_1.acceptOffer backend offer fx.v2_1
      { response := .action o.response, fixed := { fx with v2_1 := o.state },
        trace := o.requests.map (fun r => (AdapterId.v2_1, r)) }
    | "v2-3.loan.fixed" =>
      let o := LoansFixedV2_3.acceptOffer cfg backend offer fx.v2_3
      { response := .action o.response, fixed := { fx with v2_3 := o.state },
        trace := o.requests.map (fun r => (AdapterId.v2_3, r)) }
    | "v2.loan.fixed.collection" =>
      let o := LoansFixedCollectionV2.acceptOffer cfg backend offer fx.collectionV2
      { response := .action o.response, fixed := { fx with collectionV2 := o.state },
        trace := o.requests.map (fun r => (AdapterId.collectionV2, r)) }
    | "v2-3.loan.fixed.collection" =>
      let o := LoansFixedCollectionV2_3.acceptOffer cfg backend offer fx.collectionV2_3
      { response := .action o.response, fixed := { fx with collectionV2_3 := o.state },
        trace := o.requests.map (fun r => (AdapterId.collectionV2_3, r)) }
    | name =>
      { response := .validationErrors "nftfi.contract.name" [name ++ " not supported"],
        fixed := fx, trace := [] }

/-- loans.liquidate: signer assertion, then dispatch on
options.nftfi.contract.name over all six registered names; the success flag
stays false when no case matches, and the verb always answers with a success
record. -/
def Loans.liquidate (cfg : Config) (backend : ContractBackend) (hasSigner : Bool)
    (name : String) (loanId : Nat) (fx : FixedAdapters) : RouterOutcome SuccessResponse :=
  match assertionHasSigner hasSigner with
  | .error e => { response := .handled (errorHandle e), fixed := fx, trace := [] }
  | .ok _ =>
    match name with
    | "v1.loan.fixed" =>
      let o := LoansFixedV1.liquidateOverdueLoan cfg backend loanId fx.v1
      { response := .success o.response, fixed := { fx with v1 := o.state },
        trace := o.requests.map (fun r => (AdapterId.v1, r)) }
    | "v2.loan.fixed" =>
      let o := LoansFixedV2.liquidateOverdueLoan cfg backend loanId fx.v2
      { response := .success o.response, fixed := { fx with v2 := o.state },
        trace := o.requests.map (fun r => (AdapterId.v2, r)) }
    | "v2.loan.fixed.collection" =>
      let o := LoansFixedCollectionV2.liquidateOverdueLoan cfg backend loanId fx.collectionV2
      { response := .success o.response, fixed := { fx with collectionV2 := o.state },
        trace := o.requests.map (fun r => (AdapterId.collectionV2, r)) }
    | "v2-3.loan.fixed.collection" =>
      let o := LoansFixedCollectionV2_3.liquidateOverdueLoan cfg backend loanId fx.collectionV2_3
      { response := .success o.response, fixed := { fx with collectionV2_3 := o.state },
        trace := o.requests.map (fun r => (AdapterId.collectionV2_3, r)) }
    | "v2-1.loan.fixed" =>
      let o := LoansFixedV2_1.liquidateOverdueLoan backend loanId fx.v2_1
      { response := .success o.response, fixed := { fx with v2_1 := o.state },
        trace := o.requests.map (fun r => (AdapterId.v2_1, r)) }
    | "v2-3.loan.fixed" =>
      let o := LoansFixedV2_3.liquidateOverdueLoan cfg backend loanId fx.v2_3
      { response := .success o.response, fixed := { fx with v2_3 := o.state },
        trace := o.requests.map (fun r => (AdapterId.v2_3, r)) }
    | _ => { response := .success false, fixed := fx, trace := [] }

/-- loans.repay: signer assertion, then dispatch on
options.nftfi.contract.name over all six registered names; the response
variable is left uninitialized (undefined) when no case matches. -/
def Loans.repay (cfg : Config) (backend : ContractBackend) (hasSigner : Bool)
    (name : String) (loanId : Nat) (fx : FixedAdapters) : RouterOutcome RepayResponse :=
  match assertionHasSigner hasSigner with
  | .error e => { response := .handled (errorHandle e), fixed := fx, trace := [] }
  | .ok _ =>
    match name with
    | "v1.loan.fixed" =>
      let o := LoansFixedV1.payBackLoan cfg backend loanId fx.v1
      { response := .action o.response, fixed := { fx with v1 := o.state },
        trace := o.requests.map (fun r => (AdapterId.v1, r)) }
    | "v2.loan.fixed" =>
      let o := LoansFixedV2.payBackLoan cfg backend loanId fx.v2
      { response := .action o.response, fixed := { fx with v2 := o.state },
        trace := o.requests.map (fun r => (AdapterId.v2, r)) }
    | "v2-1.loan.fixed" =>
      let o := LoansFixedV2_1.payBackLoan backend loanId fx.v2_1
      { response := .action o.response, fixed := { fx with v2_1 := o.state },
        trace := o.requests.map (fun r => (AdapterId.v2_1, r)) }
    | "v2-3.loan.fixed" =>
      let o := LoansFixedV2_3.payBackLoan cfg backend loanId fx.v2_3
      { response := .action o.response, fixed := { fx with v2_3 := o.state },
        trace := o.requests.map (fun r => (AdapterId.v2_3, r)) }
    | "v2.loan.fixed.collection" =>
      let o := LoansFixedCollectionV2.payBackLoan cfg backend loanId fx.collectionV2
      { response := .action o.response, fixed := { fx with collectionV2 := o.state },
        trace := o.requests.map (fun r => (AdapterId.collectionV2, r)) }
    | "v2-3.loan.fixed.collection" =>
      let o := LoansFixedCollectionV2_3.payBackLoan cfg backend loanId fx.collectionV2_3
      { response := .action o.response, fixed := { fx with collectionV2_3 := o.state },
        trace := o.requests.map (fun r => (AdapterId.collectionV2_3, r)) }
    | _ => { response := .undef, fixed := fx, trace := [] }

/-- loans.revokeOffer: signer assertion, then dispatch on
options.nftfi.contract.name over all six registered names; the success flag
stays false when no case matches. -/
def Loans.revokeOffer (cfg : Config) (backend : ContractBackend) (hasSigner : Bool)
    (name : String) (nonce : String) (fx : FixedAdapters) : RouterOutcome SuccessResponse :=
  match assertionHasSigner hasSigner with
  | .error e => { response := .handled (errorHandle e), fixed := fx, trace := [] }
  | .ok _ =>
    match name with
    | "v1.loan.fixed" =>
      let o := LoansFixedV1.cancelLoanCommitmentBeforeLoanHasBegun cfg backend nonce fx.v1
      { response := .success o.response, fixed := { fx with v1 := o.state },
        trace := o.requests.map (fun r => (AdapterId.v1, r)) }
    | "v2.loan.fixed" =>
      let o := LoansFixedV2.cancelLoanCommitmentBeforeLoanHasBegun cfg backend nonce fx.v2
      { response := .success o.response, fixed := { fx with v2 := o.state },
        trace := o.requests.map (fun r => (AdapterId.v2, r)) }
    | "v2-1.loan.fixed" =>
      let o := LoansFixedV2_1.cancelLoanCommitmentBeforeLoanHasBegun backend nonce fx.v2_1
      { response := .success o.response, fixed := { fx with v2_1 := o.state },
        trace := o.requests.map (fun r => (AdapterId.v2_1, r)) }
    | "v2-3.loan.fixed" =>
      let o := LoansFixedV2_3.cancelLoanCommitmentBeforeLoanHasBegun cfg backend nonce fx.v2_3
      { response := .success o.response, fixed := { fx with v2_3 := o.state },
        trace := o.requests.map (fun r => (AdapterId.v2_3, r)) }
    | "v2.loan.fixed.collection" =>
      let o := LoansFixedCollectionV2.cancelLoanCommitmentBeforeLoanHasBegun cfg backend nonce fx.collectionV2
      { response := .success o.response, fixed := { fx with collectionV2 := o.state },
        trace := o.requests.map (fun r => (AdapterId.collectionV2, r)) }
    | "v2-3.loan.fixed.collection" =>
      let o := LoansFixedCollectionV2_3.cancelLoanCommitmentBeforeLoanHasBegun cfg backend nonce fx.collectionV2_3
      { response := .success o.response, fixed := { fx with collectionV2_3 := o.state },
        trace := o.requests.map (fun r => (AdapterId.collectionV2_3, r)) }
    | _ => { response := .success false, fixed := fx, trace := [] }

/-- A parameter value sent to the REST API: a string or a number. -/
inductive ParamValue where
  | str (s : String)
  | num (n : Nat)
deriving DecidableEq, Repr

/-- A request issued to the injected REST API client. -/
structure ApiRequest where
  uri : String
  params : List (String × ParamValue)
deriving DecidableEq, Repr

/-- Response of the read verbs loans.get and listings.get: the mapped result
records (records kept opaque as strings) or the handled form of a thrown
error. -/
inductive QueryResponse where
  | results (records : List String)
  | handled (e : HandledError)
deriving DecidableEq, Repr

/-- Filters of loans.get. -/
structure LoansGetFilters where
  counterparty : String
  status : String
deriving DecidableEq, Repr

/-- loans.get: address assertion, then one REST call with the account
address and the filters; every thrown error (including the assertion error)
is converted by the error collaborator.  The second component is the list of
REST requests issued. -/
def Loans.get (hasAddress : Bool) (address : String)
    (api : ApiRequest → Except JsError (List String))
    (helper : String → String)
    (filters : LoansGetFilters) : QueryResponse × List ApiRequest :=
  match assertionHasAddress hasAddress with
  | .error e => (.handled (errorHandle e), [])
  | .ok _ =>
    let req : ApiRequest :=
      { uri := "v0.1/loans",
        params := [("accountAddress", .str address),
          ("counterparty", .str filters.counterparty),
          ("status", .str filters.status)] }
    match api req with
    | .ok results => (.results (results.map helper), [req])
    | .error e => (.handled (errorHandle e), [req])

/-!
Listings (src/nftfi/listings.js).
-/

/-- A caller-supplied pagination object: each field may be absent. -/
structure SuppliedPagination where
  page : Option Nat
  limit : Option Nat
deriving DecidableEq, Repr

/-- Caller-supplied filters of listings.get. -/
structure ListingsFilters where
  nftAddresses : Option (List String)
deriving DecidableEq, Repr

/-- Options of listings.get: pagination and filters may each be absent. -/
structure ListingsOptions where
  pagination : Option SuppliedPagination
  filters : Option ListingsFilters
deriving DecidableEq, Repr

/-- The JS expression supplied-value || default, where the supplied value is
either absent (undefined) or a number: absent and 0 are falsy and give the
default. -/
def jsOrNat (x : Option Nat) (d : Nat) : Nat :=
  match x with
  | some n => if n = 0 then d else n
  | none => d

/-- listings.get: effective limit and page are the supplied values if truthy,
else the configuration defaults; one REST call with the joined address filter
and the effective pagination.  The second component is the list of REST
requests issued. -/
def Listings.get (cfg : Config)
    (api : ApiRequest → Except JsError (List String))
    (helper : String → String)
    (options : ListingsOptions) : QueryResponse × List ApiRequest :=
  let limit := jsOrNat (options.pagination.bind SuppliedPagination.limit) cfg.pagination.limit
  let page := jsOrNat (options.pagination.bind SuppliedPagination.page) cfg.pagination.page
  let nftAddresses := (options.filters.bind ListingsFilters.nftAddresses).getD []
  let req : ApiRequest :=
    { uri := "v0.1/listings",
      params := [("nftAddresses", .str (String.intercalate "," nftAddresses)),
        ("page", .num page), ("limit", .num limit)] }
  match api req with
  | .ok results => (.results (results.map helper), [req])
  | .error e => (.handled (errorHandle e), [req])

/-- The six registered contract-version names (spec section 3). -/
def registeredContractVersionNames : List String :=
  [ "v1.loan.fixed", "v2.loan.fixed", "v2-1.loan.fixed", "v2-3.loan.fixed",
    "v2.loan.fixed.collection", "v2-3.loan.fixed.collection" ]

/-!
Operation sequences over one adapter instance, to express construction-time
behaviour, first-use creation and handle reuse over the adapter lifetime.
-/

/-- One public adapter operation together with its argument. -/
inductive AdapterOp where
  | accept (offer : Offer)
  | liquidate (loanId : Nat)
  | payBack (loanId : Nat)
  | cancel (nonce : String)
deriving DecidableEq, Repr

/-- State reached by running one public operation of the v2.3 adapter. -/
def LoansFixedV2_3.runOp (cfg : Config) (backend : ContractBackend) :
    AdapterOp → AdapterState → AdapterState
  | .accept offer, s => (LoansFixedV2_3.acceptOffer cfg backend offer s).state
  | .liquidate i, s => (LoansFixedV2_3.liquidateOverdueLoan cfg backend i s).state
  | .payBack i, s => (LoansFixedV2_3.payBackLoan cfg backend i s).state
  | .cancel n, s => (LoansFixedV2_3.cancelLoanCommitmentBeforeLoanHasBegun cfg backend n s).state

/-- State reached by running a sequence of public operations of the v2.3
adapter. -/
def LoansFixedV2_3.runOps (cfg : Config) (backend : ContractBackend)
    (ops : List AdapterOp) (s : AdapterState) : AdapterState :=
  ops.foldl (fun t op => LoansFixedV2_3.runOp cfg backend op t) s

/-- State reached by running one public operation of the collection v2.3
adapter. -/
def LoansFixedCollectionV2_3.runOp (cfg : Config) (backend : ContractBackend) :
    AdapterOp → AdapterState → AdapterState
  | .accept offer, s => (LoansFixedCollectionV2_3.acceptOffer cfg backend offer s).state
  | .liquidate i, s => (LoansFixedCollectionV2_3.liquidateOverdueLoan cfg backend i s).state
  | .payBack i, s => (LoansFixedCollectionV2_3.payBackLoan cfg backend i s).state
  | .cancel n, s => (LoansFixedCollectionV2_3.cancelLoanCommitmentBeforeLoanHasBegun cfg backend n s).state

/-- State reached by running a sequence of public operations of the
collection v2.3 adapter. -/
def LoansFixedCollectionV2_3.runOps (cfg : Config) (backend : ContractBackend)
    (ops : List AdapterOp) (s : AdapterState) : AdapterState :=
  ops.foldl (fun t op => LoansFixedCollectionV2_3.runOp cfg backend op t) s

/-- State reached by running one public operation of the v2.1 adapter. -/
def LoansFixedV2_1.runOp (backend : ContractBackend) :
    AdapterOp → AdapterState → AdapterState
  | .accept offer, s => (LoansFixedV2_1.acceptOffer backend offer s).state
  | .liquidate i, s => (LoansFixedV2_1.liquidateOverdueLoan backend i s).state
  | .payBack i, s => (LoansFixedV2_1.payBackLoan backend i s).state
  | .cancel n, s => (LoansFixedV2_1.cancelLoanCommitmentBeforeLoanHasBegun backend n s).state

/-- State reached by running a sequence of public operations of the v2.1
adapter. -/
def LoansFixedV2_1.runOps (backend : ContractBackend)
    (ops : List AdapterOp) (s : AdapterState) : AdapterState :=
  ops.foldl (fun t op => LoansFixedV2_1.runOp backend op t) s

theorem getContract_cached_v2_3 (cfg : Config) (s : AdapterState)
    (c : ContractHandle) (h : s.contract = some c) :
    LoansFixedV2_3.getContract cfg s = (c, s) := by
  simp [LoansFixedV2_3.getContract, h]

theorem getContract_fresh_v2_3 (cfg : Config) (s : AdapterState)
    (h : s.contract = none) :
    LoansFixedV2_3.getContract cfg s =
      (contractFactoryCreate (LoansFixedV2_3.ref cfg),
       { contract := some (contractFactoryCreate (LoansFixedV2_3.ref cfg)),
         factoryCalls := s.factoryCalls + 1 }) := by
  simp [LoansFixedV2_3.getContract, h]

theorem runOp_state_v2_3 (cfg : Config) (backend : ContractBackend)
    (op : AdapterOp) (s : AdapterState) :
    LoansFixedV2_3.runOp cfg backend op s = (LoansFixedV2_3.getContract cfg s).2 := by
  cases op <;>
    simp only [LoansFixedV2_3.runOp, LoansFixedV2_3.acceptOffer,
      LoansFixedV2_3.liquidateOverdueLoan, LoansFixedV2_3.payBackLoan,
      LoansFixedV2_3.cancelLoanCommitmentBeforeLoanHasBegun] <;>
    cases hb : backend (LoansFixedV2_3.getContract cfg s).1 _ <;> rfl

theorem runOp_cached_v2_3 (cfg : Config) (backend : ContractBackend)
    (op : AdapterOp) (s : AdapterState) (c : ContractHandle) (h : s.contract = some c) :
    LoansFixedV2_3.runOp cfg backend op s = s := by
  rw [runOp_state_v2_3, getContract_cached_v2_3 cfg s c h]

theorem runOps_settled_v2_3 (cfg : Config) (backend : ContractBackend)
    (ops : List AdapterOp) (s : AdapterState) (c : ContractHandle) (h : s.contract = some c) :
    LoansFixedV2_3.runOps cfg backend ops s = s := by
  induction ops with
  | nil => rfl
  | cons op rest ih =>
    simp only [LoansFixedV2_3.runOps, List.foldl_cons]
    rw [runOp_cached_v2_3 cfg backend op s c h]
    exact ih

/-- After any nonempty sequence of public operations from construction, the
v2.3 adapter holds exactly the handle the factory created for its registered
address and abi, and the factory has been invoked exactly once. -/
theorem runOps_from_init_v2_3 (cfg : Config) (backend : ContractBackend)
    (ops : List AdapterOp) (h : ops ≠ []) :
    LoansFixedV2_3.runOps cfg backend ops LoansFixedV2_3.init =
      { contract := some (contractFactoryCreate (LoansFixedV2_3.ref cfg)),
        factoryCalls := 1 } := by
  cases ops with
  | nil => exact absurd rfl h
  | cons op rest =>
    simp only [LoansFixedV2_3.runOps, List.foldl_cons]
    rw [runOp_state_v2_3, getContract_fresh_v2_3 cfg _ rfl]
    exact runOps_settled_v2_3 cfg backend rest _ _ rfl

theorem getContract_cached_collV2_3 (cfg : Config) (s : AdapterState)
    (c : ContractHandle) (h : s.contract = some c) :
    LoansFixedCollectionV2_3.getContract cfg s = (c, s) := by
  simp [LoansFixedCollectionV2_3.getContract, h]

theorem getContract_fresh_collV2_3 (cfg : Config) (s : AdapterState)
    (h : s.contract = none) :
    LoansFixedCollectionV2_3.getContract cfg s =
      (contractFactoryCreate (LoansFixedCollectionV2_3.ref cfg),
       { contract := some (contractFactoryCreate (LoansFixedCollectionV2_3.ref cfg)),
         factoryCalls := s.factoryCalls + 1 }) := by
  simp [LoansFixedCollectionV2_3.getContract, h]

theorem runOp_state_collV2_3 (cfg : Config) (backend : ContractBackend)
    (op : AdapterOp) (s : AdapterState) :
    LoansFixedCollectionV2_3.runOp cfg backend op s =
      (LoansFixedCollectionV2_3.getContract cfg s).2 := by
  cases op <;>
    simp only [LoansFixedCollectionV2_3.runOp, LoansFixedCollectionV2_3.acceptOffer,
      LoansFixedCollectionV2_3.liquidateOverdueLoan, LoansFixedCollectionV2_3.payBackLoan,
      LoansFixedCollectionV2_3.cancelLoanCommitmentBeforeLoanHasBegun] <;>
    cases hb : backend (LoansFixedCollectionV2_3.getContract cfg s).1 _ <;> rfl

theorem runOps_settled_collV2_3 (cfg : Config) (backend : ContractBackend)
    (ops : List AdapterOp) (s : AdapterState) (c : ContractHandle) (h : s.contract = some c) :
    LoansFixedCollectionV2_3.runOps cfg backend ops s = s := by
  induction ops with
  | nil => rfl
  | cons op rest ih =>
    simp only [LoansFixedCollectionV2_3.runOps, List.foldl_cons]
    rw [runOp_state_collV2_3,
      getContract_cached_collV2_3 cfg s c h]
    exact ih

/-- After any nonempty sequence of public operations from construction, the
collection v2.3 adapter holds exactly the handle the factory created for its
registered address and abi, and the factory has been invoked exactly once. -/
theorem runOps_from_init_collV2_3 (cfg : Config) (backend : ContractBackend)
    (ops : List AdapterOp) (h : ops ≠ []) :
    LoansFixedCollectionV2_3.runOps cfg backend ops LoansFixedCollectionV2_3.init =
      { contract := some (contractFactoryCreate (LoansFixedCollectionV2_3.ref cfg)),
        factoryCalls := 1 } := by
  cases ops with
  | nil => exact absurd rfl h
  | cons op rest =>
    simp only [LoansFixedCollectionV2_3.runOps, List.foldl_cons]
    rw [runOp_state_collV2_3,
      getContract_fresh_collV2_3 cfg _ rfl]
    exact runOps_settled_collV2_3 cfg backend rest _ _ rfl

theorem LoansFixedV2_1.runOp_id (backend : ContractBackend)
    (op : AdapterOp) (s : AdapterState) :
    LoansFixedV2_1.runOp backend op s = s := by
  cases op <;>
    simp only [LoansFixedV2_1.runOp, LoansFixedV2_1.acceptOffer,
      LoansFixedV2_1.liquidateOverdueLoan, LoansFixedV2_1.payBackLoan,
      LoansFixedV2_1.cancelLoanCommitmentBeforeLoanHasBegun] <;>
    cases s.contract <;>
    first
      | rfl
      | (split <;> first | rfl | (split <;> rfl))

/-- The v2.1 adapter never changes state after construction: the single
handle created by its constructor is the one used for every call, and the
factory is never invoked again. -/
theorem LoansFixedV2_1.runOps_id (backend : ContractBackend)
    (ops : List AdapterOp) (s : AdapterState) :
    LoansFixedV2_1.runOps backend ops s = s := by
  induction ops with
  | nil => rfl
  | cons op rest ih =>
    simp only [LoansFixedV2_1.runOps, List.foldl_cons]
    rw [LoansFixedV2_1.runOp_id]
    exact ih

/-!
Concrete sample collaborators and inputs used by witnesses and
counterexamples.
-/

/-- A backend that always resolves with a receipt of status 1. -/
def sampleBackendOk : ContractBackend :=
  fun _ _ => Except.ok (some { status := some 1 })

/-- A backend that always throws. -/
def sampleBackendThrow : ContractBackend :=
  fun _ _ => Except.error (JsError.fault "timeout")

/-- A concrete well-formed offer naming the given contract version, with
principal and repayment above the double-precision safe integer range. -/
def sampleOffer (name : String) : Offer :=
  { nft := { address := "0x1111111111111111111111111111111111111111", id := "42" }
    lender := { address := "0x2222222222222222222222222222222222222222", nonce := "314159265359" }
    terms :=
      { loan :=
        { currency := "0x3333333333333333333333333333333333333333"
          principal := 12345678901234567890
          repayment := 13000000000000000001
          duration := 604800
          expiry := 1690548548 } }
    signature := "0x00000000000000000000000000000000000000000000000000ab"
    nftfi := { fee := { bps := 500 }, contract := { name := name } } }

/-- C1.  The claim says every one of the three adapters, including the
individual v2.1 one, is constructed without calling the contract factory.
The v2.1 constructor invokes the factory create immediately and stores the
handle (src/unnamed/part_000, LoansFixedV2_1 constructor), so at the concrete
mainnet configuration the claimed construction-time behaviour is false. -/
theorem claim1_counterexample :
    ¬ ((LoansFixedV2_1.init mainnetConfig).factoryCalls = 0
       ∧ (LoansFixedV2_1.init mainnetConfig).contract = none) := by
  decide

/-- C1 (amended).  The v2.3 and collection v2.3 adapters are constructed
without any factory call and with no contract handle; their handle is
created, keyed by the registered address and abi, on the first public
operation and then cached: after any nonempty operation sequence the state
holds exactly that one handle and the factory has run exactly once, and a
cached handle is returned as is by the getter without a further factory
call.  The v2.1 adapter instead calls the factory exactly once at
construction, and its single handle is reused unchanged by every operation. -/
theorem claim1_lazy_instantiation (cfg : Config) (backend : ContractBackend)
    (ops : List AdapterOp) (h : ops ≠ []) :
    (LoansFixedV2_3.init.contract = none ∧ LoansFixedV2_3.init.factoryCalls = 0
      ∧ LoansFixedCollectionV2_3.init.contract = none
      ∧ LoansFixedCollectionV2_3.init.factoryCalls = 0)
    ∧ ((LoansFixedV2_1.init cfg).contract
        = some (contractFactoryCreate (LoansFixedV2_1.ref cfg))
      ∧ (LoansFixedV2_1.init cfg).factoryCalls = 1)
    ∧ LoansFixedV2_3.runOps cfg backend ops LoansFixedV2_3.init =
        { contract := some (contractFactoryCreate (LoansFixedV2_3.ref cfg)),
          factoryCalls := 1 }
    ∧ LoansFixedCollectionV2_3.runOps cfg backend ops LoansFixedCollectionV2_3.init =
        { contract := some (contractFactoryCreate (LoansFixedCollectionV2_3.ref cfg)),
          factoryCalls := 1 }
    ∧ LoansFixedV2_1.runOps backend ops (LoansFixedV2_1.init cfg) = LoansFixedV2_1.init cfg
    ∧ (∀ (s : AdapterState) (c : ContractHandle), s.contract = some c →
        LoansFixedV2_3.getContract cfg s = (c, s)
        ∧ LoansFixedCollectionV2_3.getContract cfg s = (c, s)) := by
  refine ⟨⟨rfl, rfl, rfl, rfl⟩, ⟨rfl, rfl⟩, ?_, ?_, ?_, ?_⟩
  · exact runOps_from_init_v2_3 cfg backend ops h
  · exact runOps_from_init_collV2_3 cfg backend ops h
  · exact LoansFixedV2_1.runOps_id backend ops _
  · intro s c hsc
    exact ⟨getContract_cached_v2_3 cfg s c hsc,
      getContract_cached_collV2_3 cfg s c hsc⟩

/-- C1 witness: the amended statement at the mainnet configuration, an
always-resolving backend and a one-operation lifetime. -/
theorem claim1_lazy_instantiation_witness :
    LoansFixedV2_3.runOps mainnetConfig sampleBackendOk [AdapterOp.liquidate 3]
        LoansFixedV2_3.init =
      { contract := some (contractFactoryCreate (LoansFixedV2_3.ref mainnetConfig)),
        factoryCalls := 1 }
    ∧ LoansFixedV2_1.runOps sampleBackendOk [AdapterOp.liquidate 3]
        (LoansFixedV2_1.init mainnetConfig) = LoansFixedV2_1.init mainnetConfig := by
  have h := claim1_lazy_instantiation mainnetConfig sampleBackendOk
    [AdapterOp.liquidate 3] (by simp)
  exact ⟨h.2.2.1, h.2.2.2.2.1⟩

/-- C2.  For every offer whose principal or repayment exceeds the
double-precision safe integer range, every adapter acceptOffer serializes
both amounts as full-precision decimal digit strings (every character an
ASCII digit, hence no scientific notation and no fractional or sign
characters) that parse back to exactly the original integers, and the
request each acceptOffer issues carries exactly that serialized payload. -/
theorem claim2_serialization (offer : Offer)
    (h : 2 ^ 53 < offer.terms.loan.principal
      ∨ 2 ^ 53 < offer.terms.loan.repayment) :
    (∀ p ∈ [LoansFixedV2_1.offerPayload offer, LoansFixedV2_3.offerPayload offer,
            LoansFixedCollectionV2_3.offerPayload offer, LoansFixedV2.offerPayload offer,
            LoansFixedCollectionV2.offerPayload offer],
        parseDecimal p.loanPrincipalAmount = offer.terms.loan.principal
        ∧ parseDecimal p.maximumRepaymentAmount = offer.terms.loan.repayment
        ∧ (∀ c ∈ p.loanPrincipalAmount.data, 48 ≤ c.toNat ∧ c.toNat ≤ 57)
        ∧ (∀ c ∈ p.maximumRepaymentAmount.data, 48 ≤ c.toNat ∧ c.toNat ≤ 57))
    ∧ (∀ (cfg : Config) (backend : ContractBackend) (s : AdapterState),
        (LoansFixedV2_3.acceptOffer cfg backend offer s).requests =
          [{ function := "acceptOffer",
             args := CallArgs.acceptArgs (LoansFixedV2_3.offerPayload offer)
               (jsSignaturePayload offer) jsBorrowerSettingsDefault }]
        ∧ (LoansFixedCollectionV2_3.acceptOffer cfg backend offer s).requests =
          [{ function := "acceptCollectionOffer",
             args := CallArgs.acceptArgs (LoansFixedCollectionV2_3.offerPayload offer)
               (jsSignaturePayload offer) jsBorrowerSettingsDefault }]
        ∧ (∀ req ∈ (LoansFixedV2_1.acceptOffer backend offer s).requests,
            req = CallRequest.mk "acceptOffer"
              (CallArgs.acceptArgs (LoansFixedV2_1.offerPayload offer)
                (jsSignaturePayload offer) jsBorrowerSettingsDefault))) := by
  constructor
  · intro p hmem
    simp only [List.mem_cons, List.not_mem_nil, or_false] at hmem
    rcases hmem with h | h | h | h | h <;> subst h <;>
      exact ⟨parseDecimal_decimalString _, parseDecimal_decimalString _,
        decimalString_chars_are_digits _, decimalString_chars_are_digits _⟩
  · intro cfg backend s
    refine ⟨?_, ?_, ?_⟩
    · simp only [LoansFixedV2_3.acceptOffer]
      split <;> rfl
    · simp only [LoansFixedCollectionV2_3.acceptOffer]
      split <;> rfl
    · intro req hreq
      simp only [LoansFixedV2_1.acceptOffer] at hreq
      rcases hc : s.contract with _ | c <;> rw [hc] at hreq
      · simp at hreq
      · rcases hb : backend c (CallRequest.mk "acceptOffer"
            (CallArgs.acceptArgs (LoansFixedV2_1.offerPayload offer)
              (jsSignaturePayload offer) jsBorrowerSettingsDefault)) with r | r <;>
          simp [hb] at hreq <;> exact hreq

/-- C2 witness: the principal 12345678901234567890 exceeds the safe range and
round-trips through the collection v2.3 serialization. -/
theorem claim2_serialization_witness :
    2 ^ 53 < (12345678901234567890 : Nat)
    ∧ parseDecimal (LoansFixedCollectionV2_3.offerPayload
        (sampleOffer "v2-3.loan.fixed.collection")).loanPrincipalAmount
      = 12345678901234567890 := by
  refine ⟨by decide, ?_⟩
  have h := claim2_serialization (sampleOffer "v2-3.loan.fixed.collection")
    (Or.inl (by decide))
  exact (h.1 _ (List.mem_cons_of_mem _ (List.mem_cons_of_mem _
    (List.mem_cons_self _ _)))).1

/-- C3.  The claim says begin dispatches every one of the six registered
contract-version names to its adapter.  For the registered name
v1.loan.fixed (and likewise v2.loan.fixed) the switch in loans.js has no
case, so the default branch answers with the not-supported validation error
and no adapter is invoked: at this concrete input the claim fails. -/
theorem claim3_counterexample :
    (Loans.begin mainnetConfig sampleBackendOk true (sampleOffer "v1.loan.fixed")
        (FixedAdapters.init mainnetConfig)).trace = []
    ∧ (Loans.begin mainnetConfig sampleBackendOk true (sampleOffer "v1.loan.fixed")
        (FixedAdapters.init mainnetConfig)).response =
      BeginResponse.validationErrors "nftfi.contract.name" ["v1.loan.fixed not supported"]
    ∧ (Loans.begin mainnetConfig sampleBackendOk true (sampleOffer "v2.loan.fixed")
        (FixedAdapters.init mainnetConfig)).trace = [] := by
  refine ⟨rfl, rfl, rfl⟩

/-- C3 (amended).  begin dispatches exactly four of the six registered names,
each to the acceptOffer of its matching adapter and to no other adapter
(every traced call is tagged with that adapter and only that adapter state
changes); for the remaining two registered names v1.loan.fixed and
v2.loan.fixed it returns the not-supported validation error and invokes no
adapter. -/
theorem claim3_begin_dispatch (cfg : Config) (backend : ContractBackend)
    (offer : Offer) (fx : FixedAdapters) :
    (offer.nftfi.contract.name = "v2-1.loan.fixed" →
      Loans.begin cfg backend true offer fx =
        { response := .action (LoansFixedV2_1.acceptOffer backend offer fx.v2_1).response,
          fixed := { fx with v2_1 := (LoansFixedV2_1.acceptOffer backend offer fx.v2_1).state },
          trace := (LoansFixedV2_1.acceptOffer backend offer fx.v2_1).requests.map
            (fun r => (AdapterId.v2_1, r)) })
    ∧ (offer.nftfi.contract.name = "v2-3.loan.fixed" →
      Loans.begin cfg backend true offer fx =
        { response := .action (LoansFixedV2_3.acceptOffer cfg backend offer fx.v2_3).response,
          fixed := { fx with v2_3 := (LoansFixedV2_3.acceptOffer cfg backend offer fx.v2_3).state },
          trace := (LoansFixedV2_3.acceptOffer cfg backend offer fx.v2_3).requests.map
            (fun r => (AdapterId.v2_3, r)) })
    ∧ (offer.nftfi.contract.name = "v2.loan.fixed.collection" →
      Loans.begin cfg backend true offer fx =
        { response := .action (LoansFixedCollectionV2.acceptOffer cfg backend offer fx.collectionV2).response,
          fixed := { fx with collectionV2 := (LoansFixedCollectionV2.acceptOffer cfg backend offer fx.collectionV2).state },
          trace := (LoansFixedCollectionV2.acceptOffer cfg backend offer fx.collectionV2).requests.map
            (fun r => (AdapterId.collectionV2, r)) })
    ∧ (offer.nftfi.contract.name = "v2-3.loan.fixed.collection" →
      Loans.begin cfg backend true offer fx =
        { response := .action (LoansFixedCollectionV2_3.acceptOffer cfg backend offer fx.collectionV2_3).response,
          fixed := { fx with collectionV2_3 := (LoansFixedCollectionV2_3.acceptOffer cfg backend offer fx.collectionV2_3).state },
          trace := (LoansFixedCollectionV2_3.acceptOffer cfg backend offer fx.collectionV2_3).requests.map
            (fun r => (AdapterId.collectionV2_3, r)) })
    ∧ (offer.nftfi.contract.name = "v1.loan.fixed" →
      Loans.begin cfg backend true offer fx =
        { response := .validationErrors "nftfi.contract.name" ["v1.loan.fixed not supported"],
          fixed := fx, trace := [] })
    ∧ (offer.nftfi.contract.name = "v2.loan.fixed" →
      Loans.begin cfg backend true offer fx =
        { response := .validationErrors "nftfi.contract.name" ["v2.loan.fixed not supported"],
          fixed := fx, trace := [] }) := by
  refine ⟨?_, ?_, ?_, ?_, ?_, ?_⟩ <;>
    intro h <;> simp [Loans.begin, assertionHasSigner, h]

/-- C3 witness: the amended statement at a concrete offer naming
v2-3.loan.fixed with a configured signer. -/
theorem claim3_begin_dispatch_witness :
    Loans.begin mainnetConfig sampleBackendOk true (sampleOffer "v2-3.loan.fixed")
        (FixedAdapters.init mainnetConfig) =
      { response := .action (LoansFixedV2_3.acceptOffer mainnetConfig sampleBackendOk
          (sampleOffer "v2-3.loan.fixed") (FixedAdapters.init mainnetConfig).v2_3).response,
        fixed := { FixedAdapters.init mainnetConfig with
          v2_3 := (LoansFixedV2_3.acceptOffer mainnetConfig sampleBackendOk
            (sampleOffer "v2-3.loan.fixed") (FixedAdapters.init mainnetConfig).v2_3).state },
        trace := (LoansFixedV2_3.acceptOffer mainnetConfig sampleBackendOk
          (sampleOffer "v2-3.loan.fixed") (FixedAdapters.init mainnetConfig).v2_3).requests.map
          (fun r => (AdapterId.v2_3, r)) } :=
  (claim3_begin_dispatch mainnetConfig sampleBackendOk (sampleOffer "v2-3.loan.fixed")
    (FixedAdapters.init mainnetConfig)).2.1 rfl

/-- C4.  With a configured signer, begin on an offer whose contract name is
not registered returns the structured validation error naming the supplied
string, does not throw (it returns a plain response), and issues no contract
call on any adapter (empty trace, adapter states untouched). -/
theorem claim4_begin_unsupported (cfg : Config) (backend : ContractBackend)
    (offer : Offer) (fx : FixedAdapters)
    (h : offer.nftfi.contract.name ∉ registeredContractVersionNames) :
    Loans.begin cfg backend true offer fx =
      { response := BeginResponse.validationErrors "nftfi.contract.name"
          [offer.nftfi.contract.name ++ " not supported"],
        fixed := fx, trace := [] } := by
  simp only [registeredContractVersionNames, List.mem_cons, List.not_mem_nil,
    or_false, not_or] at h
  unfold Loans.begin
  split
  · simp [assertionHasSigner] at *
  · split <;> simp_all

/-- C4 witness: a concrete unregistered name. -/
theorem claim4_begin_unsupported_witness :
    Loans.begin mainnetConfig sampleBackendOk true (sampleOffer "v9.loan.fixed")
        (FixedAdapters.init mainnetConfig) =
      { response := BeginResponse.validationErrors "nftfi.contract.name"
          ["v9.loan.fixed not supported"],
        fixed := FixedAdapters.init mainnetConfig, trace := [] } :=
  claim4_begin_unsupported mainnetConfig sampleBackendOk (sampleOffer "v9.loan.fixed")
    (FixedAdapters.init mainnetConfig) (by decide)

/-- C7.  With a configured signer, liquidate, repay and revokeOffer on an
unregistered contract name fall through silently: liquidate and revokeOffer
answer success false, repay answers the uninitialized (undefined) response;
none of the three throws or returns a validation error, and no adapter or
contract call is performed (empty trace, adapter states untouched). -/
theorem claim7_silent_fallthrough (cfg : Config) (backend : ContractBackend)
    (name : String) (loanId : Nat) (nonce : String) (fx : FixedAdapters)
    (h : name ∉ registeredContractVersionNames) :
    Loans.liquidate cfg backend true name loanId fx =
      { response := SuccessResponse.success false, fixed := fx, trace := [] }
    ∧ Loans.repay cfg backend true name loanId fx =
      { response := RepayResponse.undef, fixed := fx, trace := [] }
    ∧ Loans.revokeOffer cfg backend true name nonce fx =
      { response := SuccessResponse.success false, fixed := fx, trace := [] } := by
  simp only [registeredContractVersionNames, List.mem_cons, List.not_mem_nil,
    or_false, not_or] at h
  refine ⟨?_, ?_, ?_⟩
  · unfold Loans.liquidate
    split
    · simp [assertionHasSigner] at *
    · split <;> simp_all
  · unfold Loans.repay
    split
    · simp [assertionHasSigner] at *
    · split <;> simp_all
  · unfold Loans.revokeOffer
    split
    · simp [assertionHasSigner] at *
    · split <;> simp_all

/-- C7 witness: a concrete unregistered name on all three verbs. -/
theorem claim7_silent_fallthrough_witness :
    Loans.liquidate mainnetConfig sampleBackendOk true "v9.loan.fixed" 3
        (FixedAdapters.init mainnetConfig) =
      { response := SuccessResponse.success false,
        fixed := FixedAdapters.init mainnetConfig, trace := [] }
    ∧ Loans.repay mainnetConfig sampleBackendOk true "v9.loan.fixed" 3
        (FixedAdapters.init mainnetConfig) =
      { response := RepayResponse.undef,
        fixed := FixedAdapters.init mainnetConfig, trace := [] } := by
  have h := claim7_silent_fallthrough mainnetConfig sampleBackendOk "v9.loan.fixed"
    3 "42" (FixedAdapters.init mainnetConfig) (by decide)
  exact ⟨h.1, h.2.1⟩

/-- A backend that throws the given error on every call. -/
def throwingBackend (e : JsError) : ContractBackend := fun _ _ => Except.error e

/-- A backend that resolves or throws uniformly with the given outcome. -/
def constBackend (res : Except JsError (Option Receipt)) : ContractBackend :=
  fun _ _ => res

/-- C5.  For every adapter and public operation, when the underlying contract
call throws (any error whatsoever), the operation returns the negative-result
shape: receipt null and status false for acceptOffer and payBackLoan, false
for liquidateOverdueLoan and cancelLoanCommitmentBeforeLoanHasBegun; no
exception propagates (the operation totalizes to a plain response). -/
theorem claim5_fail_closed (cfg : Config) (offer : Offer) (loanId : Nat)
    (nonce : String) (s : AdapterState) (e : JsError) :
    (LoansFixedV2_3.acceptOffer cfg (throwingBackend e) offer s).response
        = { receipt := none, status := false }
    ∧ (LoansFixedV2_3.liquidateOverdueLoan cfg (throwingBackend e) loanId s).response = false
    ∧ (LoansFixedV2_3.payBackLoan cfg (throwingBackend e) loanId s).response
        = { receipt := none, status := false }
    ∧ (LoansFixedV2_3.cancelLoanCommitmentBeforeLoanHasBegun cfg (throwingBackend e) nonce s).response = false
    ∧ (LoansFixedCollectionV2_3.acceptOffer cfg (throwingBackend e) offer s).response
        = { receipt := none, status := false }
    ∧ (LoansFixedCollectionV2_3.liquidateOverdueLoan cfg (throwingBackend e) loanId s).response = false
    ∧ (LoansFixedCollectionV2_3.payBackLoan cfg (throwingBackend e) loanId s).response
        = { receipt := none, status := false }
    ∧ (LoansFixedCollectionV2_3.cancelLoanCommitmentBeforeLoanHasBegun cfg (throwingBackend e) nonce s).response = false
    ∧ (LoansFixedV2_1.acceptOffer (throwingBackend e) offer s).response
        = { receipt := none, status := false }
    ∧ (LoansFixedV2_1.liquidateOverdueLoan (throwingBackend e) loanId s).response = false
    ∧ (LoansFixedV2_1.payBackLoan (throwingBackend e) loanId s).response
        = { receipt := none, status := false }
    ∧ (LoansFixedV2_1.cancelLoanCommitmentBeforeLoanHasBegun (throwingBackend e) nonce s).response = false
    ∧ (LoansFixedV1.liquidateOverdueLoan cfg (throwingBackend e) loanId s).response = false
    ∧ (LoansFixedV1.payBackLoan cfg (throwingBackend e) loanId s).response
        = { receipt := none, status := false }
    ∧ (LoansFixedV1.cancelLoanCommitmentBeforeLoanHasBegun cfg (throwingBackend e) nonce s).response = false
    ∧ (LoansFixedV2.acceptOffer cfg (throwingBackend e) offer s).response
        = { receipt := none, status := false }
    ∧ (LoansFixedV2.liquidateOverdueLoan cfg (throwingBackend e) loanId s).response = false
    ∧ (LoansFixedV2.payBackLoan cfg (throwingBackend e) loanId s).response
        = { receipt := none, status := false }
    ∧ (LoansFixedV2.cancelLoanCommitmentBeforeLoanHasBegun cfg (throwingBackend e) nonce s).response = false
    ∧ (LoansFixedCollectionV2.acceptOffer cfg (throwingBackend e) offer s).response
        = { receipt := none, status := false }
    ∧ (LoansFixedCollectionV2.liquidateOverdueLoan cfg (throwingBackend e) loanId s).response = false
    ∧ (LoansFixedCollectionV2.payBackLoan cfg (throwingBackend e) loanId s).response
        = { receipt := none, status := false }
    ∧ (LoansFixedCollectionV2.cancelLoanCommitmentBeforeLoanHasBegun cfg (throwingBackend e) nonce s).response = false := by
  repeat' apply And.intro
  all_goals first
    | rfl
    | (cases hc : s.contract <;>
        simp [LoansFixedV2_1.acceptOffer, LoansFixedV2_1.liquidateOverdueLoan,
          LoansFixedV2_1.payBackLoan,
          LoansFixedV2_1.cancelLoanCommitmentBeforeLoanHasBegun,
          throwingBackend, hc])

theorem jsOptStatusIsOne_eq_true_iff (result : Option Receipt) :
    jsOptStatusIsOne result = true ↔ result = some { status := some 1 } := by
  rcases result with _ | r
  · simp [jsOptStatusIsOne]
  · rcases r with ⟨st⟩
    rcases st with _ | v
    · simp [jsOptStatusIsOne]
    · simp [jsOptStatusIsOne, Receipt.mk.injEq, beq_iff_eq]

/-- C6.  For every adapter operation run against a uniform backend outcome,
the reported status (or boolean) is true exactly when the call resolved with
a receipt whose status field equals 1; a resolved receipt with any other
status (0, absent) or a null resolution yields false, and a thrown fault
yields receipt null with status false (or bare false).  The v2.1 entries are
taken in the state its constructor establishes (a cached handle). -/
theorem claim6_status_one (cfg : Config) (offer : Offer) (loanId : Nat)
    (nonce : String) (s : AdapterState) (c : ContractHandle)
    (res : Except JsError (Option Receipt)) :
    (∀ r ∈ [ (LoansFixedV2_3.acceptOffer cfg (constBackend res) offer s).response,
             (LoansFixedV2_3.payBackLoan cfg (constBackend res) loanId s).response,
             (LoansFixedCollectionV2_3.acceptOffer cfg (constBackend res) offer s).response,
             (LoansFixedCollectionV2_3.payBackLoan cfg (constBackend res) loanId s).response,
             (LoansFixedV2.acceptOffer cfg (constBackend res) offer s).response,
             (LoansFixedV2.payBackLoan cfg (constBackend res) loanId s).response,
             (LoansFixedCollectionV2.acceptOffer cfg (constBackend res) offer s).response,
             (LoansFixedCollectionV2.payBackLoan cfg (constBackend res) loanId s).response,
             (LoansFixedV1.payBackLoan cfg (constBackend res) loanId s).response,
             (LoansFixedV2_1.acceptOffer (constBackend res) offer
               { contract := some c, factoryCalls := 1 }).response,
             (LoansFixedV2_1.payBackLoan (constBackend res) loanId
               { contract := some c, factoryCalls := 1 }).response ],
        (r.status = true ↔ res = Except.ok (some { status := some 1 }))
        ∧ (∀ e, res = Except.error e → r = { receipt := none, status := false }))
    ∧ (∀ b ∈ [ (LoansFixedV2_3.liquidateOverdueLoan cfg (constBackend res) loanId s).response,
               (LoansFixedV2_3.cancelLoanCommitmentBeforeLoanHasBegun cfg (constBackend res) nonce s).response,
               (LoansFixedCollectionV2_3.liquidateOverdueLoan cfg (constBackend res) loanId s).response,
               (LoansFixedCollectionV2_3.cancelLoanCommitmentBeforeLoanHasBegun cfg (constBackend res) nonce s).response,
               (LoansFixedV2.liquidateOverdueLoan cfg (constBackend res) loanId s).response,
               (LoansFixedV2.cancelLoanCommitmentBeforeLoanHasBegun cfg (constBackend res) nonce s).response,
               (LoansFixedCollectionV2.liquidateOverdueLoan cfg (constBackend res) loanId s).response,
               (LoansFixedCollectionV2.cancelLoanCommitmentBeforeLoanHasBegun cfg (constBackend res) nonce s).response,
               (LoansFixedV1.liquidateOverdueLoan cfg (constBackend res) loanId s).response,
               (LoansFixedV1.cancelLoanCommitmentBeforeLoanHasBegun cfg (constBackend res) nonce s).response,
               (LoansFixedV2_1.liquidateOverdueLoan (constBackend res) loanId
                 { contract := some c, factoryCalls := 1 }).response,
               (LoansFixedV2_1.cancelLoanCommitmentBeforeLoanHasBegun (constBackend res) nonce
                 { contract := some c, factoryCalls := 1 }).response ],
        (b = true ↔ res = Except.ok (some { status := some 1 }))
        ∧ (∀ e, res = Except.error e → b = false)) := by
  constructor
  · intro r hmem
    simp only [List.mem_cons, List.not_mem_nil, or_false] at hmem
    rcases hmem with h|h|h|h|h|h|h|h|h|h|h <;> subst h <;>
      rcases hres : res with er | v <;>
        simp [LoansFixedV2_3.acceptOffer, LoansFixedV2_3.payBackLoan,
          LoansFixedCollectionV2_3.acceptOffer, LoansFixedCollectionV2_3.payBackLoan,
          LoansFixedV2.acceptOffer, LoansFixedV2.payBackLoan,
          LoansFixedCollectionV2.acceptOffer, LoansFixedCollectionV2.payBackLoan,
          LoansFixedV1.payBackLoan, LoansFixedV2_1.acceptOffer,
          LoansFixedV2_1.payBackLoan, constBackend, hres,
          jsOptStatusIsOne_eq_true_iff]
  · intro b hmem
    simp only [List.mem_cons, List.not_mem_nil, or_false] at hmem
    rcases hmem with h|h|h|h|h|h|h|h|h|h|h|h <;> subst h <;>
      rcases hres : res with er | v <;>
        simp [LoansFixedV2_3.liquidateOverdueLoan,
          LoansFixedV2_3.cancelLoanCommitmentBeforeLoanHasBegun,
          LoansFixedCollectionV2_3.liquidateOverdueLoan,
          LoansFixedCollectionV2_3.cancelLoanCommitmentBeforeLoanHasBegun,
          LoansFixedV2.liquidateOverdueLoan,
          LoansFixedV2.cancelLoanCommitmentBeforeLoanHasBegun,
          LoansFixedCollectionV2.liquidateOverdueLoan,
          LoansFixedCollectionV2.cancelLoanCommitmentBeforeLoanHasBegun,
          LoansFixedV1.liquidateOverdueLoan,
          LoansFixedV1.cancelLoanCommitmentBeforeLoanHasBegun,
          LoansFixedV2_1.liquidateOverdueLoan,
          LoansFixedV2_1.cancelLoanCommitmentBeforeLoanHasBegun, constBackend, hres,
          jsOptStatusIsOne_eq_true_iff]

/-- C6 witness: a resolved receipt with status 1 reports status true through
the v2.3 acceptOffer. -/
theorem claim6_status_one_witness :
    (LoansFixedV2_3.acceptOffer mainnetConfig
        (constBackend (Except.ok (some { status := some 1 })))
        (sampleOffer "v2-3.loan.fixed") LoansFixedV2_3.init).response.status = true := by
  have h := claim6_status_one mainnetConfig (sampleOffer "v2-3.loan.fixed") 3 "42"
    LoansFixedV2_3.init (contractFactoryCreate (LoansFixedV2_1.ref mainnetConfig))
    (Except.ok (some { status := some 1 }))
  exact ((h.1 _ (List.mem_cons_self _ _)).1).mpr rfl

theorem LoansFixedV2_1.requests_functions (backend : ContractBackend)
    (offer : Offer) (loanId : Nat) (nonce : String) (s : AdapterState) :
    (∀ req ∈ (LoansFixedV2_1.acceptOffer backend offer s).requests,
      req.function = "acceptOffer")
    ∧ (∀ req ∈ (LoansFixedV2_1.liquidateOverdueLoan backend loanId s).requests,
      req.function = "liquidateOverdueLoan")
    ∧ (∀ req ∈ (LoansFixedV2_1.payBackLoan backend loanId s).requests,
      req.function = "payBackLoan")
    ∧ (∀ req ∈ (LoansFixedV2_1.cancelLoanCommitmentBeforeLoanHasBegun backend nonce s).requests,
      req.function = "cancelLoanCommitmentBeforeLoanHasBegun") := by
  refine ⟨?_, ?_, ?_, ?_⟩ <;>
    intro req hreq <;>
    simp only [LoansFixedV2_1.acceptOffer, LoansFixedV2_1.liquidateOverdueLoan,
      LoansFixedV2_1.payBackLoan,
      LoansFixedV2_1.cancelLoanCommitmentBeforeLoanHasBegun] at hreq <;>
    rcases hc : s.contract with _ | c <;>
    rw [hc] at hreq <;>
    simp at hreq <;>
    revert hreq <;>
    (try split) <;>
    intro hreq <;>
    simp at hreq <;>
    subst hreq <;>
    rfl

/-- C8.  The claim says both collection adapters invoke an entry point named
acceptCollectionOffer.  The registered mainnet abi of v2.loan.fixed.collection
(config.js) declares no acceptCollectionOffer entry point at all (while the
v2-3 collection abi does), and the v2 collection adapter accordingly invokes
the entry point named acceptOffer, so the claim fails for the v2 collection
adapter. -/
theorem claim8_counterexample :
    abiDeclaresFunction mainnetLoanFixedCollectionV2Abi "acceptCollectionOffer" = false
    ∧ abiDeclaresFunction mainnetLoanFixedCollectionV2_3Abi "acceptCollectionOffer" = true
    ∧ (LoansFixedCollectionV2.acceptOffer mainnetConfig sampleBackendOk
        (sampleOffer "v2.loan.fixed.collection") LoansFixedCollectionV2.init).requests.map
        CallRequest.function = ["acceptOffer"] := by
  refine ⟨by decide, by decide, rfl⟩

/-- C8 (amended).  The collection v2.3 adapter exposes acceptOffer externally
but invokes the entry point acceptCollectionOffer; the collection v2 adapter
(whose registered abi declares no acceptCollectionOffer) invokes the entry
point acceptOffer, as do the individual-loan adapters v2, v2.1 and v2.3; the
three other operations invoke identically named entry points
(liquidateOverdueLoan, payBackLoan, cancelLoanCommitmentBeforeLoanHasBegun)
in every adapter. -/
theorem claim8_entry_points (cfg : Config) (backend : ContractBackend)
    (offer : Offer) (loanId : Nat) (nonce : String) (s : AdapterState) :
    ((LoansFixedCollectionV2_3.acceptOffer cfg backend offer s).requests.map
      CallRequest.function = ["acceptCollectionOffer"])
    ∧ ((LoansFixedCollectionV2.acceptOffer cfg backend offer s).requests.map
      CallRequest.function = ["acceptOffer"])
    ∧ ((LoansFixedV2_3.acceptOffer cfg backend offer s).requests.map
      CallRequest.function = ["acceptOffer"])
    ∧ ((LoansFixedV2.acceptOffer cfg backend offer s).requests.map
      CallRequest.function = ["acceptOffer"])
    ∧ (∀ req ∈ (LoansFixedV2_1.acceptOffer backend offer s).requests,
      req.function = "acceptOffer")
    ∧ ((LoansFixedV2_3.liquidateOverdueLoan cfg backend loanId s).requests.map
      CallRequest.function = ["liquidateOverdueLoan"])
    ∧ ((LoansFixedCollectionV2_3.liquidateOverdueLoan cfg backend loanId s).requests.map
      CallRequest.function = ["liquidateOverdueLoan"])
    ∧ ((LoansFixedV2.liquidateOverdueLoan cfg backend loanId s).requests.map
      CallRequest.function = ["liquidateOverdueLoan"])
    ∧ ((LoansFixedCollectionV2.liquidateOverdueLoan cfg backend loanId s).requests.map
      CallRequest.function = ["liquidateOverdueLoan"])
    ∧ ((LoansFixedV1.liquidateOverdueLoan cfg backend loanId s).requests.map
      CallRequest.function = ["liquidateOverdueLoan"])
    ∧ (∀ req ∈ (LoansFixedV2_1.liquidateOverdueLoan backend loanId s).requests,
      req.function = "liquidateOverdueLoan")
    ∧ ((LoansFixedV2_3.payBackLoan cfg backend loanId s).requests.map
      CallRequest.function = ["payBackLoan"])
    ∧ ((LoansFixedCollectionV2_3.payBackLoan cfg backend loanId s).requests.map
      CallRequest.function = ["payBackLoan"])
    ∧ ((LoansFixedV2.payBackLoan cfg backend loanId s).requests.map
      CallRequest.function = ["payBackLoan"])
    ∧ ((LoansFixedCollectionV2.payBackLoan cfg backend loanId s).requests.map
      CallRequest.function = ["payBackLoan"])
    ∧ ((LoansFixedV1.payBackLoan cfg backend loanId s).requests.map
      CallRequest.function = ["payBackLoan"])
    ∧ (∀ req ∈ (LoansFixedV2_1.payBackLoan backend loanId s).requests,
      req.function = "payBackLoan")
    ∧ ((LoansFixedV2_3.cancelLoanCommitmentBeforeLoanHasBegun cfg backend nonce s).requests.map
      CallRequest.function = ["cancelLoanCommitmentBeforeLoanHasBegun"])
    ∧ ((LoansFixedCollectionV2_3.cancelLoanCommitmentBeforeLoanHasBegun cfg backend nonce s).requests.map
      CallRequest.function = ["cancelLoanCommitmentBeforeLoanHasBegun"])
    ∧ ((LoansFixedV2.cancelLoanCommitmentBeforeLoanHasBegun cfg backend nonce s).requests.map
      CallRequest.function = ["cancelLoanCommitmentBeforeLoanHasBegun"])
    ∧ ((LoansFixedCollectionV2.cancelLoanCommitmentBeforeLoanHasBegun cfg backend nonce s).requests.map
      CallRequest.function = ["cancelLoanCommitmentBeforeLoanHasBegun"])
    ∧ ((LoansFixedV1.cancelLoanCommitmentBeforeLoanHasBegun cfg backend nonce s).requests.map
      CallRequest.function = ["cancelLoanCommitmentBeforeLoanHasBegun"])
    ∧ (∀ req ∈ (LoansFixedV2_1.cancelLoanCommitmentBeforeLoanHasBegun backend nonce s).requests,
      req.function = "cancelLoanCommitmentBeforeLoanHasBegun") := by
  have hv21 := LoansFixedV2_1.requests_functions backend offer loanId nonce s
  repeat' apply And.intro
  all_goals first
    | exact hv21.1
    | exact hv21.2.1
    | exact hv21.2.2.1
    | exact hv21.2.2.2
    | (simp only [LoansFixedCollectionV2_3.acceptOffer, LoansFixedCollectionV2.acceptOffer,
        LoansFixedV2_3.acceptOffer, LoansFixedV2.acceptOffer,
        LoansFixedV2_3.liquidateOverdueLoan, LoansFixedCollectionV2_3.liquidateOverdueLoan,
        LoansFixedV2.liquidateOverdueLoan, LoansFixedCollectionV2.liquidateOverdueLoan,
        LoansFixedV1.liquidateOverdueLoan, LoansFixedV2_3.payBackLoan,
        LoansFixedCollectionV2_3.payBackLoan, LoansFixedV2.payBackLoan,
        LoansFixedCollectionV2.payBackLoan, LoansFixedV1.payBackLoan,
        LoansFixedV2_3.cancelLoanCommitmentBeforeLoanHasBegun,
        LoansFixedCollectionV2_3.cancelLoanCommitmentBeforeLoanHasBegun,
        LoansFixedV2.cancelLoanCommitmentBeforeLoanHasBegun,
        LoansFixedCollectionV2.cancelLoanCommitmentBeforeLoanHasBegun,
        LoansFixedV1.cancelLoanCommitmentBeforeLoanHasBegun]; split <;> rfl)

/-- C8 witness: the amended statement at a concrete state, with the v2.1
membership clause discharged on the request its acceptOffer issues from the
constructor state. -/
theorem claim8_entry_points_witness :
    ∀ req ∈ (LoansFixedV2_1.acceptOffer sampleBackendOk
        (sampleOffer "v2-1.loan.fixed") (LoansFixedV2_1.init mainnetConfig)).requests,
      req.function = "acceptOffer" :=
  (claim8_entry_points mainnetConfig sampleBackendOk (sampleOffer "v2-1.loan.fixed")
    3 "42" (LoansFixedV2_1.init mainnetConfig)).2.2.2.2.1

/-- C9.  When no signer (or, for get, no address) is configured, every router
verb fails its precondition check before any dispatch: the response is the
error collaborator applied to the assertion error, no contract call is traced,
no adapter state changes, and no REST request is issued. -/
theorem claim9_precondition_first (cfg : Config) (backend : ContractBackend)
    (offer : Offer) (name : String) (loanId : Nat) (nonce : String)
    (fx : FixedAdapters) (address : String)
    (api : ApiRequest → Except JsError (List String)) (helper : String → String)
    (filters : LoansGetFilters) :
    Loans.begin cfg backend false offer fx =
      { response := .handled (errorHandle (JsError.assertion "signer required")),
        fixed := fx, trace := [] }
    ∧ Loans.liquidate cfg backend false name loanId fx =
      { response := .handled (errorHandle (JsError.assertion "signer required")),
        fixed := fx, trace := [] }
    ∧ Loans.repay cfg backend false name loanId fx =
      { response := .handled (errorHandle (JsError.assertion "signer required")),
        fixed := fx, trace := [] }
    ∧ Loans.revokeOffer cfg backend false name nonce fx =
      { response := .handled (errorHandle (JsError.assertion "signer required")),
        fixed := fx, trace := [] }
    ∧ Loans.get false address api helper filters =
      (.handled (errorHandle (JsError.assertion "address required")), []) :=
  ⟨rfl, rfl, rfl, rfl, rfl⟩

theorem jsOrNat_falsy (x : Option Nat) (d : Nat) (h : x = none ∨ x = some 0) :
    jsOrNat x d = d := by
  rcases h with h | h <;> simp [jsOrNat, h]

theorem jsOrNat_ne_zero (x : Option Nat) (d : Nat) (hd : d ≠ 0) :
    jsOrNat x d ≠ 0 := by
  rcases x with _ | n
  · simpa [jsOrNat] using hd
  · by_cases hn : n = 0
    · simpa [jsOrNat, hn] using hd
    · simpa [jsOrNat, hn] using hn

/-- C10.  listings.get sends exactly one REST request whose page and limit
are the supplied values when truthy and the configuration defaults (page 1,
limit 20) otherwise; every falsy supplied value (absent, or an explicit 0)
is replaced by the default, and the page and limit actually sent are never
0, so page 0 or limit 0 can never be requested from the backend. -/
theorem claim10_listings_falsy_pagination :
    (∀ (options : ListingsOptions) (api : ApiRequest → Except JsError (List String))
        (helper : String → String),
      (Listings.get mainnetConfig api helper options).2 =
        [ { uri := "v0.1/listings",
            params := [("nftAddresses", ParamValue.str (String.intercalate ","
                ((options.filters.bind ListingsFilters.nftAddresses).getD []))),
              ("page", ParamValue.num (jsOrNat (options.pagination.bind SuppliedPagination.page) 1)),
              ("limit", ParamValue.num (jsOrNat (options.pagination.bind SuppliedPagination.limit) 20))] } ])
    ∧ (∀ (page limit : Option Nat), (page = none ∨ page = some 0) →
        (limit = none ∨ limit = some 0) →
        jsOrNat ((some (SuppliedPagination.mk page limit)).bind SuppliedPagination.page) 1 = 1
        ∧ jsOrNat ((some (SuppliedPagination.mk page limit)).bind SuppliedPagination.limit) 20 = 20)
    ∧ (∀ (options : ListingsOptions),
        jsOrNat (options.pagination.bind SuppliedPagination.page) 1 ≠ 0
        ∧ jsOrNat (options.pagination.bind SuppliedPagination.limit) 20 ≠ 0) := by
  refine ⟨?_, ?_, ?_⟩
  · intro options api helper
    simp only [Listings.get]
    split <;> rfl
  · intro page limit hp hl
    exact ⟨jsOrNat_falsy _ _ hp, jsOrNat_falsy _ _ hl⟩
  · intro options
    exact ⟨jsOrNat_ne_zero _ _ (by decide), jsOrNat_ne_zero _ _ (by decide)⟩

/-- C10 witness: an explicit pagination of page 0 and limit 0 is replaced by
the defaults in the one request sent. -/
theorem claim10_listings_falsy_pagination_witness :
    (Listings.get mainnetConfig (fun _ => Except.ok []) (fun r => r)
        { pagination := some { page := some 0, limit := some 0 }, filters := none }).2 =
      [ { uri := "v0.1/listings",
          params := [("nftAddresses", ParamValue.str ""),
            ("page", ParamValue.num 1), ("limit", ParamValue.num 20)] } ] := by
  have h := claim10_listings_falsy_pagination
  rw [h.1 { pagination := some { page := some 0, limit := some 0 }, filters := none }
    (fun _ => Except.ok []) (fun r => r)]
  have h2 := h.2.1 (some 0) (some 0) (Or.inr rfl) (Or.inr rfl)
  rw [h2.1, h2.2]
  rfl
